import Mathlib

/-!
# PeloMon: BLE Cycling Power GATT (`BLECyclingGatt.h`)

A shallow embedding of the Fletcher-16 catalog comparator and of the Cycling
Power Measurement encoder, followed by the properties proved about them.

Conventions of the embedding (target: AVR, avr-gcc):
* a byte of memory is a `Fin 256`; machine integers are `Nat` (or `Int` after
  integer promotion) and every narrowing is an explicit `%`;
* `int` is 16 bits wide, `char` is signed, objects are stored little-endian;
* a `char*` is modelled by the list of bytes that starts at the pointer;
  reading past the end of the list yields NUL (for a PROGMEM string literal
  this is its terminating NUL);
* the collaborators `ble_` and `gatt_` are a transport that answers each
  command from the history of commands issued so far; a method of
  `BLECyclingPower` maps the object and the history to the new object and
  the extended history.
-/

namespace Pelomon

/-- A byte of memory. -/
abbrev Byte := Fin 256

/-! ## Definitions -/

/-- Value of `*str` for a `const char* str` after integer promotion: plain
`char` is signed on AVR, so bytes from 128 upwards read as negative. -/
def charToInt (b : Byte) : Int :=
  if b.val < 128 then (b.val : Int) else (b.val : Int) - 256

/-- Conversion of an `int` value to `uint8_t` (reduction modulo 256). -/
def toUint8 (i : Int) : Nat := (i % 256).toNat

/-- The `for (; len > 0; len--, str++)` loop of `fletcher16`, carrying the
two `uint8_t` accumulators `lo` and `hi`. -/
def fletcher16_loop : List Byte → Nat → Nat → Nat → Nat × Nat
  | _, 0, lo, hi => (lo, hi)
  | str, len + 1, lo, hi =>
    let lo1 := toUint8 ((lo : Int) + charToInt (str.headD 0))
    let hi1 := toUint8 ((hi : Int) + (lo1 : Int))
    fletcher16_loop str.tail len lo1 hi1

/-- `uint16_t fletcher16(const char* str, uint16_t len)`. -/
def fletcher16 (str : List Byte) (len : Nat) : Nat :=
  let acc := fletcher16_loop str len 0 0
  let lo := acc.1
  let hi := acc.2
  let rv := hi
  let rv := (rv <<< 8) % 65536
  let rv := rv ||| lo
  rv

/-- One round of the Python reference: `lo = (lo + ord(c)) & 0xFF` and then
`hi = (hi + lo) & 0xFF`. -/
def fletcher16_py_step (acc : Nat × Nat) (c : Byte) : Nat × Nat :=
  let lo := (acc.1 + c.val) % 256
  let hi := (acc.2 + lo) % 256
  (lo, hi)

/-- The Python reference `fletcher16(s)` quoted in the source comment, which
is also the checksum as the specification words it. -/
def fletcher16_py (s : List Byte) : Nat :=
  let acc := s.foldl fletcher16_py_step (0, 0)
  (acc.2 <<< 8) ||| acc.1

/-- The bytes of a string literal stored in PROGMEM (without its NUL). -/
def progmem_string (s : String) : List Byte :=
  s.toList.map (fun c => ⟨c.toNat % 256, Nat.mod_lt _ (by decide)⟩)

def line_1 : List Byte := progmem_string "ID=01,UUID=0x1818"

def line_2 : List Byte := progmem_string
  "  ID=01,UUID=0x2A65,PROPERTIES=0x02,MIN_LEN=4,MAX_LEN=4,DATATYPE=0,VALUE=0"

def line_3 : List Byte := progmem_string
  "  ID=02,UUID=0x2A63,PROPERTIES=0x10,MIN_LEN=6,MAX_LEN=6,DATATYPE=0,VALUE=00-00-00-00-00-00"

def line_4 : List Byte := progmem_string
  "  ID=03,UUID=0x2A5D,PROPERTIES=0x02,MIN_LEN=1,MAX_LEN=1,DATATYPE=0,VALUE=0"

def line_10 : List Byte := progmem_string "OK"

def EXPECTED_GATT_DEFNS : List (List Byte) :=
  [line_1, line_2, line_3, line_4, line_10]

def EXPECTED_GATT_DEFNS_FLETCHER16 : List Nat :=
  [0xAC45, 0x389C, 0x228F, 0x39A6, 0xE99A]

def EXPECTED_GATT_DEFNS_LINE_COUNT : Nat := 5

/-- The state shared by the comparator callbacks; `pgm_entry_table` is the
untyped `void*`, viewed by each callback as a table of its own element type
(`uint16_t` words for hashes, PROGMEM strings for text). -/
structure ProgmemComparatorState (α : Type) where
  is_equal : Bool
  line_number : Nat
  total_lines : Nat
  pgm_entry_table : List α
  deriving DecidableEq, Repr

/-- The `pgm_read_word(&(table[i]))` of a table of 16-bit words; a slot
outside the modelled table reads as 0. -/
def pgm_read_word (table : List Nat) (i : Nat) : Nat := table.getD i 0

/-- `fletcher16_comparator_callback`, returning the new state together with
the indices at which this call subscripts the hash table. -/
def fletcher16_comparator_callback_traced (state : ProgmemComparatorState Nat)
    (linebuf : List Byte) (line_len : Nat) : ProgmemComparatorState Nat × List Nat :=
  if state.line_number >= state.total_lines then (state, [])
  else
    let pgm_hash_table := state.pgm_entry_table
    let next_pgm_hash := pgm_read_word pgm_hash_table state.line_number % 65536
    let hashes_matched : Bool := next_pgm_hash == fletcher16 linebuf line_len
    ({ state with
        is_equal := state.is_equal && hashes_matched
        line_number := (state.line_number + 1) % 256 },
     [state.line_number])

/-- `void fletcher16_comparator_callback(void*, char* linebuf, uint16_t line_len)`
as a state transformer. -/
def fletcher16_comparator_callback (state : ProgmemComparatorState Nat)
    (linebuf : List Byte) (line_len : Nat) : ProgmemComparatorState Nat :=
  (fletcher16_comparator_callback_traced state linebuf line_len).1

/-- avr-libc `strnlen_P(s, maxlen)`: the number of bytes before the first NUL
among the first `maxlen` bytes of `s`. -/
def strnlen_P : List Byte → Nat → Nat
  | _, 0 => 0
  | s, maxlen + 1 => if s.headD 0 = 0 then 0 else 1 + strnlen_P s.tail maxlen

/-- avr-libc `strncmp_P(s1, s2, n)`: compares at most `n` bytes, stops after a
NUL, and returns the difference of the first pair of differing bytes. -/
def strncmp_P : List Byte → List Byte → Nat → Int
  | _, _, 0 => 0
  | s1, s2, n + 1 =>
    let c1 := s1.headD 0
    let c2 := s2.headD 0
    if c1 ≠ c2 then (c1.val : Int) - (c2.val : Int)
    else if c1 = 0 then 0
    else strncmp_P s1.tail s2.tail n

/-- `void string_comparator_callback(void*, char* linebuf, uint16_t line_len)`
as a state transformer. `line_len+1` is computed in 16-bit `unsigned int`. -/
def string_comparator_callback (state : ProgmemComparatorState (List Byte))
    (linebuf : List Byte) (line_len : Nat) : ProgmemComparatorState (List Byte) :=
  if state.line_number >= state.total_lines then state
  else
    let pgm_line_table := state.pgm_entry_table
    let next_pgm_line := pgm_line_table.getD state.line_number []
    let next_pgm_line_len := strnlen_P next_pgm_line ((line_len + 1) % 65536) % 65536
    let lines_matched := strncmp_P linebuf next_pgm_line line_len
    { state with
        is_equal := state.is_equal && (line_len == next_pgm_line_len)
                      && ((0 : Int) == lines_matched)
        line_number := (state.line_number + 1) % 256 }

/-- The initial comparator state set up before a listing is streamed:
`is_equal = true`, `line_number = 0`. -/
def comparator_init {α : Type} (total_lines : Nat) (table : List α) :
    ProgmemComparatorState α :=
  { is_equal := true, line_number := 0, total_lines := total_lines,
    pgm_entry_table := table }

/-- Feeding a stream of `(linebuf, line_len)` pairs, one call per line, to
`fletcher16_comparator_callback`. -/
def fletcher16_comparator_feed (state : ProgmemComparatorState Nat)
    (stream : List (List Byte × Nat)) : ProgmemComparatorState Nat :=
  stream.foldl (fun st ln => fletcher16_comparator_callback st ln.1 ln.2) state

/-- Feeding a stream of `(linebuf, line_len)` pairs, one call per line, to
`string_comparator_callback`. -/
def string_comparator_feed (state : ProgmemComparatorState (List Byte))
    (stream : List (List Byte × Nat)) : ProgmemComparatorState (List Byte) :=
  stream.foldl (fun st ln => string_comparator_callback st ln.1 ln.2) state

/-- All hash-table indices subscripted while a stream is fed to
`fletcher16_comparator_callback`, in order. -/
def fletcher16_comparator_feed_reads :
    ProgmemComparatorState Nat → List (List Byte × Nat) → List Nat
  | _, [] => []
  | state, ln :: rest =>
    let r := fletcher16_comparator_callback_traced state ln.1 ln.2
    r.2 ++ fletcher16_comparator_feed_reads r.1 rest

/-- The stream in which every line is delivered with its own length. -/
def lines_stream (lines : List (List Byte)) : List (List Byte × Nat) :=
  lines.map (fun l => (l, l.length))

/-- Object representation of an unsigned integer that occupies `size` bytes:
least significant byte first (AVR is little-endian). -/
def object_bytes : Nat → Nat → List Byte
  | 0, _ => []
  | size + 1, v => ⟨v % 256, Nat.mod_lt _ (by decide)⟩ :: object_bytes size (v / 256)

/-- The `memcpy(buffer+base, src, n)` of `src` into `buffer` at offset `base`. -/
def memcpy : List Byte → Nat → List Byte → List Byte
  | buffer, _, [] => buffer
  | buffer, base, b :: src => memcpy (buffer.set base b) (base + 1) src

/-- The macro `APPEND_BUFFER(buffer,base,field)` for a field of `size` bytes;
`base` is a `uint8_t`. -/
def APPEND_BUFFER (buf : List Byte × Nat) (size field : Nat) : List Byte × Nat :=
  (memcpy buf.1 buf.2 (object_bytes size field), (buf.2 + size) % 256)

/-- The local `uint16_t flags` of `update`; the two `CPM_*` constants come
from `ble_constants.h`. -/
def update_flags (CPM_CRANK_REV_DATA_PRESENT CPM_WHEEL_REV_DATA_PRESENT : Nat) : Nat :=
  (CPM_CRANK_REV_DATA_PRESENT ||| CPM_WHEEL_REV_DATA_PRESENT) % 65536

/-- The parameter `power_watts` after
`if (power_watts > 0x7FFF) power_watts = 0x7FFF;`. -/
def update_power (power_watts : Nat) : Nat :=
  if power_watts > 0x7FFF then 0x7FFF else power_watts

/-- The local `last_wheel_event_time_cp` of `update`:
`(uint16_t) ((last_wheel_rev_timestamp_ms * 2048 / 1000))` in `uint32_t` arithmetic. -/
def last_wheel_event_time_cp (last_wheel_rev_timestamp_ms : Nat) : Nat :=
  ((last_wheel_rev_timestamp_ms * 2048) % 4294967296 / 1000) % 65536

/-- The local `last_crank_event_time_cp` of `update`:
`(uint16_t) ((last_crank_rev_timestamp_ms * 1024 / 1000 ))` in `uint32_t` arithmetic. -/
def last_crank_event_time_cp (last_crank_rev_timestamp_ms : Nat) : Nat :=
  ((last_crank_rev_timestamp_ms * 1024) % 4294967296 / 1000) % 65536

/-- The pair `(data, base)` of `update` when `gatt_.setChar` is reached. -/
def update_data (CPM_CRANK_REV_DATA_PRESENT CPM_WHEEL_REV_DATA_PRESENT : Nat)
    (crank_revs last_crank_rev_timestamp_ms wheel_revs last_wheel_rev_timestamp_ms
      power_watts _total_energy_kj : Nat) : List Byte × Nat :=
  let data : List Byte := List.replicate 14 0
  let base := 0
  let flags := update_flags CPM_CRANK_REV_DATA_PRESENT CPM_WHEEL_REV_DATA_PRESENT
  let buf := APPEND_BUFFER (data, base) 2 flags
  let power_watts := update_power power_watts
  let buf := APPEND_BUFFER buf 2 power_watts
  let buf := APPEND_BUFFER buf 4 wheel_revs
  let buf := APPEND_BUFFER buf 2 (last_wheel_event_time_cp last_wheel_rev_timestamp_ms)
  let buf := APPEND_BUFFER buf 2 crank_revs
  let buf := APPEND_BUFFER buf 2 (last_crank_event_time_cp last_crank_rev_timestamp_ms)
  buf

/-- The buffer handed to the transport by
`gatt_.setChar(cp_measurement_id, data, base)`: the first `base` bytes of `data`. -/
def update_buffer (CPM_CRANK_REV_DATA_PRESENT CPM_WHEEL_REV_DATA_PRESENT : Nat)
    (crank_revs last_crank_rev_timestamp_ms wheel_revs last_wheel_rev_timestamp_ms
      power_watts total_energy_kj : Nat) : List Byte :=
  let buf := update_data CPM_CRANK_REV_DATA_PRESENT CPM_WHEEL_REV_DATA_PRESENT
    crank_revs last_crank_rev_timestamp_ms wheel_revs last_wheel_rev_timestamp_ms
    power_watts total_energy_kj
  buf.1.take buf.2

/-- `bool BLECyclingPower::update(...)`: the record goes to the transport's
`setChar`, whose answer is returned; `handle_sc_control_point` does nothing. -/
def update (setChar : Nat → List Byte → Bool) (cp_measurement_id : Nat)
    (CPM_CRANK_REV_DATA_PRESENT CPM_WHEEL_REV_DATA_PRESENT : Nat)
    (crank_revs last_crank_rev_timestamp_ms wheel_revs last_wheel_rev_timestamp_ms
      power_watts total_energy_kj : Nat) : Bool :=
  let cpm_success := setChar cp_measurement_id
    (update_buffer CPM_CRANK_REV_DATA_PRESENT CPM_WHEEL_REV_DATA_PRESENT
      crank_revs last_crank_rev_timestamp_ms wheel_revs last_wheel_rev_timestamp_ms
      power_watts total_energy_kj)
  cpm_success

/-- Little-endian encoding of `v` on `size` bytes: byte `i` is
`floor(v / 256^i) mod 256`. -/
def le_encode (size v : Nat) : List Byte :=
  (List.range size).map (fun i => ⟨v / 256 ^ i % 256, Nat.mod_lt _ (by decide)⟩)

/-- The unsigned integer a little-endian byte sequence stands for. -/
def le_decode : List Byte → Nat
  | [] => 0
  | b :: rest => b.val + 256 * le_decode rest

/-- The field of `len` bytes at offset `off` of a record. -/
def record_field (record : List Byte) (off len : Nat) : List Byte :=
  (record.drop off).take len

/-- Decoding of a 14-byte record as the little-endian fields flags(2) /
power(2) / wheel_revs(4) / wheel_event_time(2) / crank_revs(2) /
crank_event_time(2), in this order. -/
def decode_record (record : List Byte) : Nat × Nat × Nat × Nat × Nat × Nat :=
  (le_decode (record_field record 0 2),
   le_decode (record_field record 2 2),
   le_decode (record_field record 4 4),
   le_decode (record_field record 8 2),
   le_decode (record_field record 10 2),
   le_decode (record_field record 12 2))

/-- Modelled from the spec: `CYCLING_POWER_SERVICE_UUID` of the absent
`ble_constants.h`; the Cycling Power service is 0x1818. -/
def CYCLING_POWER_SERVICE_UUID : Nat := 0x1818

/-- Modelled from the spec: `CYCLING_POWER_FEATURE_CHAR_UUID` of the absent
`ble_constants.h`; the Feature characteristic is 0x2A65. -/
def CYCLING_POWER_FEATURE_CHAR_UUID : Nat := 0x2A65

/-- Modelled from the spec: `CYCLING_POWER_MEASUREMENT_CHAR_UUID` of the absent
`ble_constants.h`; the Measurement characteristic is 0x2A63. -/
def CYCLING_POWER_MEASUREMENT_CHAR_UUID : Nat := 0x2A63

/-- Modelled from the spec: `SENSOR_LOCATION_CHAR_UUID` of the absent
`ble_constants.h`; the Sensor Location characteristic is 0x2A5D. -/
def SENSOR_LOCATION_CHAR_UUID : Nat := 0x2A5D

/-- The property bit `GATT_CHARS_PROPERTIES_READ` of the Adafruit GATT helper. -/
def GATT_CHARS_PROPERTIES_READ : Nat := 0x02

/-- The property bit `GATT_CHARS_PROPERTIES_NOTIFY` of the Adafruit GATT helper. -/
def GATT_CHARS_PROPERTIES_NOTIFY : Nat := 0x10

/-- The data type `BLE_DATATYPE_AUTO` of the Adafruit GATT helper. -/
def BLE_DATATYPE_AUTO : Nat := 0

/-- A call made on the collaborators `ble_` and `gatt_`. A characteristic
identifier is `none` when the field it is read from holds no value assigned by
the program. The `description` and `presentFormat` arguments of
`addCharacteristic` are always `NULL` and are left out; logger output is not
part of the model. -/
inductive Command where
  | factoryReset
  | reset
  | sendCommandCheckOK (cmd : String)
  | clear
  | addService (uuid : Nat)
  | addCharacteristic (uuid properties min_len max_len datatype : Nat)
  | setCharValue (charID : Option Nat) (value : Nat)
  | setCharBuffer (charID : Option Nat) (data : List Byte)
  deriving DecidableEq, Repr

/-- A behaviour of the transport: the answer (a `bool` as 0 or 1, or an
identifier, 0 on failure) to the last command of a history of commands. -/
abbrev Transport := List Command → Nat

/-- Issuing one command: it is appended to the history and answered. -/
def issue (t : Transport) (hist : List Command) (c : Command) : List Command × Nat :=
  (hist ++ [c], t (hist ++ [c]))

/-- The identifier fields of `class BLECyclingPower`; `none` is a field that
holds no value assigned by the program. -/
structure BLECyclingPower where
  cp_service_id : Option Nat
  cp_feature_id : Option Nat
  cp_measurement_id : Option Nat
  cp_sensor_location_id : Option Nat
  csc_service_id : Option Nat
  csc_feature_id : Option Nat
  csc_measurement_id : Option Nat
  csc_sensor_location_id : Option Nat
  sc_control_point_id : Option Nat
  deriving DecidableEq, Repr

/-- The constructor `BLECyclingPower(ble, logger_)`: it initialises the
collaborators only and assigns no identifier field. -/
def BLECyclingPower_new : BLECyclingPower :=
  { cp_service_id := none, cp_feature_id := none, cp_measurement_id := none,
    cp_sensor_location_id := none, csc_service_id := none, csc_feature_id := none,
    csc_measurement_id := none, csc_sensor_location_id := none,
    sc_control_point_id := none }

/-- `bool gatts_as_expected()`: its first statement is `return false;`, so the
comparator set-up and the `AT+GATTLIST` query below it are never reached. The
result is paired with the unchanged command history. -/
def gatts_as_expected (_t : Transport) (_obj : BLECyclingPower) (hist : List Command) :
    Bool × List Command :=
  (false, hist)

/-- `void setup_cycling_power_feature()`; the returned `uint8_t` identifiers are
stored in the fields. -/
def setup_cycling_power_feature (t : Transport) (obj : BLECyclingPower)
    (hist : List Command) : BLECyclingPower × List Command :=
  let r := issue t hist (.addService CYCLING_POWER_SERVICE_UUID)
  let obj := { obj with cp_service_id := some (r.2 % 256) }
  let r := issue t r.1 (.addCharacteristic CYCLING_POWER_FEATURE_CHAR_UUID
    GATT_CHARS_PROPERTIES_READ 4 4 BLE_DATATYPE_AUTO)
  let obj := { obj with cp_feature_id := some (r.2 % 256) }
  let r := issue t r.1 (.addCharacteristic CYCLING_POWER_MEASUREMENT_CHAR_UUID
    (GATT_CHARS_PROPERTIES_READ ||| GATT_CHARS_PROPERTIES_NOTIFY) 14 14 BLE_DATATYPE_AUTO)
  let obj := { obj with cp_measurement_id := some (r.2 % 256) }
  let r := issue t r.1 (.addCharacteristic SENSOR_LOCATION_CHAR_UUID
    GATT_CHARS_PROPERTIES_READ 1 1 BLE_DATATYPE_AUTO)
  let obj := { obj with cp_sensor_location_id := some (r.2 % 256) }
  (obj, r.1)

/-- `void load_or_setup_gatts()`; the answers of `factoryReset` and `clear` are
discarded. -/
def load_or_setup_gatts (t : Transport) (obj : BLECyclingPower) (hist : List Command) :
    BLECyclingPower × List Command :=
  let g := gatts_as_expected t obj hist
  if !g.1 then
    let r := issue t g.2 .factoryReset
    let r := issue t r.1 .clear
    setup_cycling_power_feature t obj r.1
  else
    (obj, g.2)

/-- `void initialize()`, as the object and the command history it leaves; the
function returns no value. The three seeding constants come from
`ble_constants.h`. -/
def initialize_BLECyclingPower (SENSOR_LOCATION_RIGHT_CRANK
    CPF_CRANK_REVOLUTION_DATA_SUPPORTED CPF_WHEEL_REVOLUTION_DATA_SUPPORTED : Nat)
    (t : Transport) (obj : BLECyclingPower) (hist : List Command) :
    BLECyclingPower × List Command :=
  let s := load_or_setup_gatts t obj hist
  let obj := s.1
  let r := issue t s.2 .reset
  let r := issue t r.1 (.sendCommandCheckOK "AT+GAPDEVNAME=PeloMon")
  let r := issue t r.1 (.sendCommandCheckOK
    ("AT+GAPSETADVDATA=" ++ "02-01-06-" ++ "02-0a-00-"
      ++ "11-06-9e-ca-dc-24-0e-e5-a9-e0-93-f3-a3-b5-01-00-40-6e-" ++ "03-02-18-18"))
  let r := issue t r.1 .reset
  let r := issue t r.1 (.setCharValue obj.cp_sensor_location_id SENSOR_LOCATION_RIGHT_CRANK)
  let r := issue t r.1 (.setCharValue obj.cp_feature_id
    ((CPF_CRANK_REVOLUTION_DATA_SUPPORTED ||| CPF_WHEEL_REVOLUTION_DATA_SUPPORTED)
      % 4294967296))
  let zero : Byte := 0
  let r := issue t r.1 (.setCharBuffer obj.sc_control_point_id [zero])
  (obj, r.1)

/-- Whether a command creates a service or a characteristic. -/
def is_creation_command : Command → Bool
  | .addService _ => true
  | .addCharacteristic _ _ _ _ _ => true
  | _ => false

/-- Upper-case hexadecimal digit of a value below 16. -/
def hex_digit (n : Nat) : Char :=
  if n < 10 then Char.ofNat (48 + n) else Char.ofNat (55 + n)

/-- Two hexadecimal digits. -/
def hex2 (n : Nat) : String :=
  String.mk [hex_digit (n / 16 % 16), hex_digit (n % 16)]

/-- Four hexadecimal digits. -/
def hex4 (n : Nat) : String :=
  String.mk [hex_digit (n / 4096 % 16), hex_digit (n / 256 % 16),
    hex_digit (n / 16 % 16), hex_digit (n % 16)]

/-- Modelled from the spec: a characteristic line of the reference catalog
grammar, `ID=<2-hex>,UUID=<4-hex>,PROPERTIES=<2-hex>,MIN_LEN=<int>,`
`MAX_LEN=<int>,DATATYPE=<int>,VALUE=<hex-bytes|int>`, indented by two blanks
under its service as in the compiled-in lines. -/
def gatt_characteristic_line (id uuid properties min_len max_len datatype : Nat)
    (value : String) : List Byte :=
  progmem_string ("  ID=" ++ hex2 id ++ ",UUID=0x" ++ hex4 uuid
    ++ ",PROPERTIES=0x" ++ hex2 properties
    ++ ",MIN_LEN=" ++ toString min_len ++ ",MAX_LEN=" ++ toString max_len
    ++ ",DATATYPE=" ++ toString datatype ++ ",VALUE=" ++ value)

/-! ## Theorems -/

theorem toUint8_add_char (lo : Nat) (b : Byte) :
    toUint8 ((lo : Int) + charToInt b) = (lo + b.val) % 256 := by
  unfold toUint8 charToInt
  split <;> omega

theorem toUint8_add_nat (hi lo : Nat) :
    toUint8 ((hi : Int) + (lo : Int)) = (hi + lo) % 256 := by
  unfold toUint8
  omega

theorem fletcher16_loop_eq_foldl (s : List Byte) (lo hi : Nat) :
    fletcher16_loop s s.length lo hi = s.foldl fletcher16_py_step (lo, hi) := by
  induction s generalizing lo hi with
  | nil => rfl
  | cons b rest ih =>
    simp only [List.length_cons, fletcher16_loop, List.headD_cons, List.tail_cons,
      List.foldl_cons, fletcher16_py_step, toUint8_add_char, toUint8_add_nat]
    exact ih _ _

theorem foldl_py_step_snd_lt (s : List Byte) (acc : Nat × Nat) (h : acc.2 < 256) :
    (s.foldl fletcher16_py_step acc).2 < 256 := by
  induction s generalizing acc with
  | nil => simpa using h
  | cons b rest ih =>
    rw [List.foldl_cons]
    apply ih
    simp only [fletcher16_py_step]
    exact Nat.mod_lt _ (by decide)

/-- C1: for every byte sequence `s` of length below 65536, the C function
`fletcher16(s, |s|)`, its length passed as a `uint16_t`, equals the Python reference of the source comment:
`(hi << 8) | lo` with `lo = (lo + b) mod 256`, `hi = (hi + lo) mod 256`
folded over the bytes in order from `lo = hi = 0`. -/
theorem fletcher16_eq_py (s : List Byte) (h : s.length < 65536) :
    fletcher16 s (s.length % 65536) = fletcher16_py s := by
  rw [Nat.mod_eq_of_lt h]
  unfold fletcher16 fletcher16_py
  rw [fletcher16_loop_eq_foldl]
  have hhi := foldl_py_step_snd_lt s (0, 0) (by decide)
  have h2 : (s.foldl fletcher16_py_step (0, 0)).2 <<< 8 < 65536 := by
    rw [Nat.shiftLeft_eq]
    omega
  simp only [Nat.mod_eq_of_lt h2]

theorem fletcher16_eq_py_witness :
    [(1 : Byte), 200, 255].length < 65536 ∧
      fletcher16 [(1 : Byte), 200, 255] ([(1 : Byte), 200, 255].length % 65536)
        = fletcher16_py [(1 : Byte), 200, 255] :=
  ⟨by decide, fletcher16_eq_py [1, 200, 255] (by decide)⟩

set_option maxRecDepth 100000 in
/-- C2: for every index `i` in 0..4, `fletcher16` of the `i`-th reference
line of `EXPECTED_GATT_DEFNS` is the `i`-th entry of
`EXPECTED_GATT_DEFNS_FLETCHER16`; the five checksums are 0xAC45, 0x389C,
0x228F, 0x39A6 and 0xE99A. -/
theorem expected_gatt_defns_fletcher16 :
    (∀ i : Fin 5,
      fletcher16 (EXPECTED_GATT_DEFNS.getD i.val []) (EXPECTED_GATT_DEFNS.getD i.val []).length
        = EXPECTED_GATT_DEFNS_FLETCHER16.getD i.val 0) ∧
    EXPECTED_GATT_DEFNS.map (fun l => fletcher16 l l.length)
      = [0xAC45, 0x389C, 0x228F, 0x39A6, 0xE99A] ∧
    EXPECTED_GATT_DEFNS.length = EXPECTED_GATT_DEFNS_LINE_COUNT ∧
    EXPECTED_GATT_DEFNS_FLETCHER16.length = EXPECTED_GATT_DEFNS_LINE_COUNT := by
  decide

/-! ### The comparator callbacks -/

theorem fletcher16_lt (str : List Byte) (len : Nat) : fletcher16 str len < 65536 := by
  have hlo : ∀ (n : Nat) (s : List Byte) (lo hi : Nat), lo < 256 →
      (fletcher16_loop s n lo hi).1 < 256 := by
    intro n
    induction n with
    | zero => intro s lo hi h; simpa [fletcher16_loop] using h
    | succ n ih =>
      intro s lo hi _
      simp only [fletcher16_loop]
      apply ih
      rw [toUint8_add_char]
      exact Nat.mod_lt _ (by decide)
  have h1 := hlo len str 0 0 (by decide)
  unfold fletcher16
  have h2 : ((fletcher16_loop str len 0 0).2 <<< 8) % 65536 < 2 ^ 16 :=
    Nat.mod_lt _ (by decide)
  have h3 : (fletcher16_loop str len 0 0).1 < 2 ^ 16 := by omega
  exact Nat.or_lt_two_pow h2 h3

theorem fletcher16_callback_of_ge (s : ProgmemComparatorState Nat) (l : List Byte) (n : Nat)
    (h : s.total_lines ≤ s.line_number) : fletcher16_comparator_callback s l n = s := by
  simp [fletcher16_comparator_callback, fletcher16_comparator_callback_traced, h]

theorem fletcher16_callback_of_lt (s : ProgmemComparatorState Nat) (l : List Byte) (n : Nat)
    (h : s.line_number < s.total_lines) (h8 : s.total_lines < 256) :
    fletcher16_comparator_callback s l n =
      { s with
        is_equal := s.is_equal &&
          (pgm_read_word s.pgm_entry_table s.line_number % 65536 == fletcher16 l n)
        line_number := s.line_number + 1 } := by
  have h1 : ¬ s.total_lines ≤ s.line_number := by omega
  have h2 : (s.line_number + 1) % 256 = s.line_number + 1 := Nat.mod_eq_of_lt (by omega)
  simp [fletcher16_comparator_callback, fletcher16_comparator_callback_traced, h1, h2]

theorem string_callback_of_ge (s : ProgmemComparatorState (List Byte)) (l : List Byte)
    (n : Nat) (h : s.total_lines ≤ s.line_number) : string_comparator_callback s l n = s := by
  simp [string_comparator_callback, h]

theorem string_callback_of_lt (s : ProgmemComparatorState (List Byte)) (l : List Byte)
    (n : Nat) (h : s.line_number < s.total_lines) (h8 : s.total_lines < 256) :
    string_comparator_callback s l n =
      { s with
        is_equal := s.is_equal &&
          (n == strnlen_P (s.pgm_entry_table.getD s.line_number []) ((n + 1) % 65536) % 65536)
          && ((0 : Int) == strncmp_P l (s.pgm_entry_table.getD s.line_number []) n)
        line_number := s.line_number + 1 } := by
  have h1 : ¬ s.total_lines ≤ s.line_number := by omega
  have h2 : (s.line_number + 1) % 256 = s.line_number + 1 := Nat.mod_eq_of_lt (by omega)
  simp [string_comparator_callback, h1, h2]

theorem fletcher16_feed_cons (s : ProgmemComparatorState Nat) (ln : List Byte × Nat)
    (rest : List (List Byte × Nat)) :
    fletcher16_comparator_feed s (ln :: rest) =
      fletcher16_comparator_feed (fletcher16_comparator_callback s ln.1 ln.2) rest := rfl

theorem string_feed_cons (s : ProgmemComparatorState (List Byte)) (ln : List Byte × Nat)
    (rest : List (List Byte × Nat)) :
    string_comparator_feed s (ln :: rest) =
      string_comparator_feed (string_comparator_callback s ln.1 ln.2) rest := rfl

theorem fletcher16_feed_of_ge (stream : List (List Byte × Nat))
    (s : ProgmemComparatorState Nat) (h : s.total_lines ≤ s.line_number) :
    fletcher16_comparator_feed s stream = s := by
  induction stream with
  | nil => rfl
  | cons ln rest ih => rw [fletcher16_feed_cons, fletcher16_callback_of_ge s _ _ h, ih]

theorem string_feed_of_ge (stream : List (List Byte × Nat))
    (s : ProgmemComparatorState (List Byte)) (h : s.total_lines ≤ s.line_number) :
    string_comparator_feed s stream = s := by
  induction stream with
  | nil => rfl
  | cons ln rest ih => rw [string_feed_cons, string_callback_of_ge s _ _ h, ih]

/-- The verdict of the checksum comparator after a stream, from any state
whose counter has not passed `total_lines`. -/
theorem fletcher16_feed_is_equal_iff (stream : List (List Byte × Nat))
    (s : ProgmemComparatorState Nat) (h8 : s.total_lines < 256) :
    (fletcher16_comparator_feed s stream).is_equal = true ↔
      s.is_equal = true ∧ ∀ j ln, stream[j]? = some ln → s.line_number + j < s.total_lines →
        pgm_read_word s.pgm_entry_table (s.line_number + j) % 65536 = fletcher16 ln.1 ln.2 := by
  induction stream generalizing s with
  | nil => simp [fletcher16_comparator_feed]
  | cons ln rest ih =>
    rw [fletcher16_feed_cons]
    by_cases hk : s.line_number < s.total_lines
    · rw [fletcher16_callback_of_lt s _ _ hk h8, ih]
      swap
      · exact h8
      simp only [Bool.and_eq_true, beq_iff_eq]
      constructor
      · rintro ⟨⟨h1, h2⟩, h3⟩
        refine ⟨h1, ?_⟩
        intro j ln2 hj hlt
        cases j with
        | zero =>
          simp only [List.getElem?_cons_zero, Option.some.injEq] at hj
          subst hj
          simpa using h2
        | succ j =>
          simp only [List.getElem?_cons_succ] at hj
          have := h3 j ln2 hj (by omega)
          rwa [Nat.add_assoc, Nat.add_comm 1 j] at this
      · rintro ⟨h1, h2⟩
        refine ⟨⟨h1, ?_⟩, ?_⟩
        · simpa using h2 0 ln (by simp) (by omega)
        · intro j ln2 hj hlt
          have := h2 (j + 1) ln2 (by simpa using hj) (by omega)
          rwa [Nat.add_assoc, Nat.add_comm 1 j]
    · have hge : s.total_lines ≤ s.line_number := by omega
      rw [fletcher16_callback_of_ge s _ _ hge, fletcher16_feed_of_ge rest s hge]
      constructor
      · intro h1
        exact ⟨h1, fun j ln2 _ hlt => absurd hlt (by omega)⟩
      · exact fun h => h.1

/-- The counter of the checksum comparator after a stream. -/
theorem fletcher16_feed_line_number (stream : List (List Byte × Nat))
    (s : ProgmemComparatorState Nat) (h8 : s.total_lines < 256)
    (hk : s.line_number ≤ s.total_lines) :
    (fletcher16_comparator_feed s stream).line_number
      = min (s.line_number + stream.length) s.total_lines := by
  induction stream generalizing s with
  | nil => simp [fletcher16_comparator_feed]; omega
  | cons ln rest ih =>
    rw [fletcher16_feed_cons]
    by_cases hlt : s.line_number < s.total_lines
    · rw [fletcher16_callback_of_lt s _ _ hlt h8, ih]
      · simp only [List.length_cons]
        omega
      · exact h8
      · exact hlt
    · have hge : s.total_lines ≤ s.line_number := by omega
      rw [fletcher16_callback_of_ge s _ _ hge, fletcher16_feed_of_ge rest s hge]
      simp only [List.length_cons]
      omega

theorem fletcher16_feed_reads_lt (stream : List (List Byte × Nat))
    (s : ProgmemComparatorState Nat) :
    ∀ i ∈ fletcher16_comparator_feed_reads s stream, i < s.total_lines := by
  induction stream generalizing s with
  | nil => simp [fletcher16_comparator_feed_reads]
  | cons ln rest ih =>
    intro i hi
    simp only [fletcher16_comparator_feed_reads, List.mem_append] at hi
    rcases hi with hi | hi
    · unfold fletcher16_comparator_callback_traced at hi
      split at hi
      · simp at hi
      · simp only [List.mem_singleton] at hi
        omega
    · have h := ih _ i hi
      have ht : (fletcher16_comparator_callback_traced s ln.1 ln.2).1.total_lines
          = s.total_lines := by
        unfold fletcher16_comparator_callback_traced
        split <;> rfl
      rwa [ht] at h

theorem fletcher16_callback_is_equal_false (s : ProgmemComparatorState Nat) (l : List Byte)
    (n : Nat) (h : s.is_equal = false) :
    (fletcher16_comparator_callback s l n).is_equal = false := by
  unfold fletcher16_comparator_callback fletcher16_comparator_callback_traced
  split
  · exact h
  · simp [h]

theorem string_callback_is_equal_false (s : ProgmemComparatorState (List Byte))
    (l : List Byte) (n : Nat) (h : s.is_equal = false) :
    (string_comparator_callback s l n).is_equal = false := by
  unfold string_comparator_callback
  split
  · exact h
  · simp [h]

theorem fletcher16_feed_is_equal_false (stream : List (List Byte × Nat))
    (s : ProgmemComparatorState Nat) (h : s.is_equal = false) :
    (fletcher16_comparator_feed s stream).is_equal = false := by
  induction stream generalizing s with
  | nil => exact h
  | cons ln rest ih =>
    rw [fletcher16_feed_cons]
    exact ih _ (fletcher16_callback_is_equal_false s _ _ h)

theorem string_feed_is_equal_false (stream : List (List Byte × Nat))
    (s : ProgmemComparatorState (List Byte)) (h : s.is_equal = false) :
    (string_comparator_feed s stream).is_equal = false := by
  induction stream generalizing s with
  | nil => exact h
  | cons ln rest ih =>
    rw [string_feed_cons]
    exact ih _ (string_callback_is_equal_false s _ _ h)

/-! ### Claims on the comparator -/

/-- C3: for every checksum table of 16-bit words, every `total_lines` (8 bits)
not exceeding the table length and every stream of lines fed one at a time to
`fletcher16_comparator_callback` from `is_equal = true`, `line_number = 0`:
the final `is_equal` is true iff `fletcher16` of line `i` equals table entry
`i` for every `i < min(n, total_lines)`; so one non-matching line at such a
position makes the final `is_equal` false. -/
theorem fletcher16_comparator_verdict (table : List Nat) (total_lines : Nat)
    (stream : List (List Byte × Nat))
    (hword : ∀ w ∈ table, w < 65536) (h8 : total_lines < 256)
    (hlen : total_lines ≤ table.length) :
    ((fletcher16_comparator_feed (comparator_init total_lines table) stream).is_equal = true ↔
      ∀ i, i < min stream.length total_lines →
        fletcher16 (stream.getD i ([], 0)).1 (stream.getD i ([], 0)).2 = table.getD i 0) ∧
    (∀ i, i < min stream.length total_lines →
      fletcher16 (stream.getD i ([], 0)).1 (stream.getD i ([], 0)).2 ≠ table.getD i 0 →
      (fletcher16_comparator_feed (comparator_init total_lines table) stream).is_equal
        = false) := by
  have hrd : ∀ i, i < total_lines → pgm_read_word table i % 65536 = table.getD i 0 := by
    intro i hi
    have hi2 : i < table.length := by omega
    unfold pgm_read_word
    rw [List.getD_eq_getElem _ _ hi2]
    exact Nat.mod_eq_of_lt (hword _ (List.getElem_mem _))
  have key := fletcher16_feed_is_equal_iff stream (comparator_init total_lines table) h8
  simp only [comparator_init, Nat.zero_add, true_and] at key
  have hiff : (fletcher16_comparator_feed (comparator_init total_lines table) stream).is_equal
        = true ↔
      ∀ i, i < min stream.length total_lines →
        fletcher16 (stream.getD i ([], 0)).1 (stream.getD i ([], 0)).2 = table.getD i 0 := by
    unfold comparator_init
    rw [key]
    constructor
    · intro h i hi
      have hi1 : i < stream.length := lt_of_lt_of_le hi (min_le_left _ _)
      have hi2 : i < total_lines := lt_of_lt_of_le hi (min_le_right _ _)
      have h1 := h i stream[i] (List.getElem?_eq_getElem hi1) hi2
      rw [hrd i hi2] at h1
      rw [List.getD_eq_getElem _ _ hi1]
      exact h1.symm
    · intro h j ln hj hlt
      obtain ⟨hj1, hj2⟩ := List.getElem?_eq_some.mp hj
      have h1 := h j (lt_min hj1 hlt)
      rw [List.getD_eq_getElem _ _ hj1, hj2] at h1
      rw [hrd j hlt]
      exact h1.symm
  refine ⟨hiff, ?_⟩
  intro i hi hne
  cases hfin : (fletcher16_comparator_feed (comparator_init total_lines table) stream).is_equal
  · rfl
  · exact absurd (hiff.mp hfin i hi) hne

theorem fletcher16_comparator_verdict_witness :
    (∀ w ∈ EXPECTED_GATT_DEFNS_FLETCHER16, w < 65536) ∧ 5 < 256 ∧
    5 ≤ EXPECTED_GATT_DEFNS_FLETCHER16.length ∧
    (fletcher16_comparator_feed (comparator_init 5 EXPECTED_GATT_DEFNS_FLETCHER16)
        [(line_10, 2), (line_10, 2)]).is_equal = false :=
  ⟨by decide, by decide, by decide,
    (fletcher16_comparator_verdict EXPECTED_GATT_DEFNS_FLETCHER16 5 [(line_10, 2), (line_10, 2)]
      (by decide) (by decide) (by decide)).2 0 (by decide) (by decide)⟩

/-- C4: from a comparator state with `is_equal = false`, one call of
`fletcher16_comparator_callback` or of `string_comparator_callback` on any
line leaves `is_equal = false`, and so does any sequence of calls. -/
theorem comparator_is_equal_stays_false (sf : ProgmemComparatorState Nat)
    (ss : ProgmemComparatorState (List Byte))
    (hf : sf.is_equal = false) (hs : ss.is_equal = false) :
    (∀ linebuf line_len,
      (fletcher16_comparator_callback sf linebuf line_len).is_equal = false) ∧
    (∀ linebuf line_len,
      (string_comparator_callback ss linebuf line_len).is_equal = false) ∧
    (∀ stream, (fletcher16_comparator_feed sf stream).is_equal = false) ∧
    (∀ stream, (string_comparator_feed ss stream).is_equal = false) :=
  ⟨fun l n => fletcher16_callback_is_equal_false sf l n hf,
   fun l n => string_callback_is_equal_false ss l n hs,
   fun stream => fletcher16_feed_is_equal_false stream sf hf,
   fun stream => string_feed_is_equal_false stream ss hs⟩

theorem comparator_is_equal_stays_false_witness :
    (({ is_equal := false, line_number := 4, total_lines := 5,
        pgm_entry_table := EXPECTED_GATT_DEFNS_FLETCHER16 } :
          ProgmemComparatorState Nat).is_equal = false) ∧
    (({ is_equal := false, line_number := 4, total_lines := 5,
        pgm_entry_table := EXPECTED_GATT_DEFNS } :
          ProgmemComparatorState (List Byte)).is_equal = false) ∧
    (fletcher16_comparator_callback
      { is_equal := false, line_number := 4, total_lines := 5,
        pgm_entry_table := EXPECTED_GATT_DEFNS_FLETCHER16 } line_10 2).is_equal = false ∧
    (string_comparator_callback
      { is_equal := false, line_number := 4, total_lines := 5,
        pgm_entry_table := EXPECTED_GATT_DEFNS } line_10 2).is_equal = false :=
  have h := comparator_is_equal_stays_false
    { is_equal := false, line_number := 4, total_lines := 5,
      pgm_entry_table := EXPECTED_GATT_DEFNS_FLETCHER16 }
    { is_equal := false, line_number := 4, total_lines := 5,
      pgm_entry_table := EXPECTED_GATT_DEFNS } rfl rfl
  ⟨rfl, rfl, h.1 line_10 2, h.2.1 line_10 2⟩

/-- C5: in a comparator state with `line_number >= total_lines`, one call of
`fletcher16_comparator_callback` or of `string_comparator_callback` on any
line returns the input state unchanged in all four fields. -/
theorem comparator_ignores_overflow (sf : ProgmemComparatorState Nat)
    (ss : ProgmemComparatorState (List Byte))
    (hf : sf.line_number ≥ sf.total_lines) (hs : ss.line_number ≥ ss.total_lines) :
    (∀ linebuf line_len, fletcher16_comparator_callback sf linebuf line_len = sf) ∧
    (∀ linebuf line_len, string_comparator_callback ss linebuf line_len = ss) :=
  ⟨fun l n => fletcher16_callback_of_ge sf l n hf,
   fun l n => string_callback_of_ge ss l n hs⟩

theorem comparator_ignores_overflow_witness :
    (5 : Nat) ≥ 5 ∧
    fletcher16_comparator_callback
      { is_equal := true, line_number := 5, total_lines := 5,
        pgm_entry_table := EXPECTED_GATT_DEFNS_FLETCHER16 } line_1 17
      = { is_equal := true, line_number := 5, total_lines := 5,
          pgm_entry_table := EXPECTED_GATT_DEFNS_FLETCHER16 } ∧
    string_comparator_callback
      { is_equal := true, line_number := 5, total_lines := 5,
        pgm_entry_table := EXPECTED_GATT_DEFNS } line_1 17
      = { is_equal := true, line_number := 5, total_lines := 5,
          pgm_entry_table := EXPECTED_GATT_DEFNS } :=
  have h := comparator_ignores_overflow
    { is_equal := true, line_number := 5, total_lines := 5,
      pgm_entry_table := EXPECTED_GATT_DEFNS_FLETCHER16 }
    { is_equal := true, line_number := 5, total_lines := 5,
      pgm_entry_table := EXPECTED_GATT_DEFNS } (by decide) (by decide)
  ⟨by decide, h.1 line_1 17, h.2 line_1 17⟩

/-- C6: for every 8-bit `total_lines` and every stream of `n` lines fed to
`fletcher16_comparator_callback` from `line_number = 0`, the final
`line_number` is `min(n, total_lines)`; after every prefix of the stream the
counter is the minimum of the lines received and `total_lines` (so it never
exceeds `total_lines`), an increment never leaves the 8-bit range, and every
index at which the table is read is below `total_lines`. -/
theorem fletcher16_comparator_line_number (s : ProgmemComparatorState Nat)
    (stream : List (List Byte × Nat))
    (h0 : s.line_number = 0) (h8 : s.total_lines < 256) :
    (fletcher16_comparator_feed s stream).line_number = min stream.length s.total_lines ∧
    (∀ k, (fletcher16_comparator_feed s (stream.take k)).line_number
        = min (min k stream.length) s.total_lines) ∧
    (∀ k, (fletcher16_comparator_feed s (stream.take k)).line_number ≤ s.total_lines) ∧
    (∀ k, (fletcher16_comparator_feed s (stream.take k)).line_number < s.total_lines →
        (fletcher16_comparator_feed s (stream.take k)).line_number + 1 < 256) ∧
    (∀ i ∈ fletcher16_comparator_feed_reads s stream, i < s.total_lines) := by
  have hk : s.line_number ≤ s.total_lines := by omega
  have hpre : ∀ k, (fletcher16_comparator_feed s (stream.take k)).line_number
      = min (min k stream.length) s.total_lines := by
    intro k
    rw [fletcher16_feed_line_number _ s h8 hk, h0, List.length_take, Nat.zero_add]
  refine ⟨?_, hpre, ?_, ?_, fletcher16_feed_reads_lt stream s⟩
  · rw [fletcher16_feed_line_number _ s h8 hk, h0, Nat.zero_add]
  · intro k
    rw [hpre k]
    exact min_le_right _ _
  · intro k hlt
    omega

theorem fletcher16_comparator_line_number_witness :
    (comparator_init 2 EXPECTED_GATT_DEFNS_FLETCHER16).line_number = 0 ∧
    (comparator_init 2 EXPECTED_GATT_DEFNS_FLETCHER16).total_lines < 256 ∧
    (fletcher16_comparator_feed (comparator_init 2 EXPECTED_GATT_DEFNS_FLETCHER16)
        [(line_1, 17), (line_10, 2), (line_10, 2)]).line_number = 2 :=
  ⟨rfl, by decide,
    (fletcher16_comparator_line_number (comparator_init 2 EXPECTED_GATT_DEFNS_FLETCHER16)
      [(line_1, 17), (line_10, 2), (line_10, 2)] rfl (by decide)).1⟩

/-! ### The text comparator against the checksum comparator -/

/-- The verdict of the text comparator after a stream. -/
theorem string_feed_is_equal_iff (stream : List (List Byte × Nat))
    (s : ProgmemComparatorState (List Byte)) (h8 : s.total_lines < 256) :
    (string_comparator_feed s stream).is_equal = true ↔
      s.is_equal = true ∧ ∀ j ln, stream[j]? = some ln → s.line_number + j < s.total_lines →
        (ln.2 = strnlen_P (s.pgm_entry_table.getD (s.line_number + j) [])
                  ((ln.2 + 1) % 65536) % 65536 ∧
          strncmp_P ln.1 (s.pgm_entry_table.getD (s.line_number + j) []) ln.2 = 0) := by
  induction stream generalizing s with
  | nil => simp [string_comparator_feed]
  | cons ln rest ih =>
    rw [string_feed_cons]
    by_cases hk : s.line_number < s.total_lines
    · rw [string_callback_of_lt s _ _ hk h8, ih]
      swap
      · exact h8
      simp only [Bool.and_eq_true, beq_iff_eq]
      constructor
      · rintro ⟨⟨⟨h1, h2⟩, h2b⟩, h3⟩
        refine ⟨h1, ?_⟩
        intro j ln2 hj hlt
        cases j with
        | zero =>
          simp only [List.getElem?_cons_zero, Option.some.injEq] at hj
          subst hj
          exact ⟨by simpa using h2, by simpa using h2b.symm⟩
        | succ j =>
          simp only [List.getElem?_cons_succ] at hj
          have := h3 j ln2 hj (by omega)
          rwa [Nat.add_assoc, Nat.add_comm 1 j] at this
      · rintro ⟨h1, h2⟩
        have h20 := h2 0 ln (by simp) (by omega)
        refine ⟨⟨⟨h1, ?_⟩, ?_⟩, ?_⟩
        · simpa using h20.1
        · simpa using h20.2.symm
        · intro j ln2 hj hlt
          have := h2 (j + 1) ln2 (by simpa using hj) (by omega)
          rwa [Nat.add_assoc, Nat.add_comm 1 j]
    · have hge : s.total_lines ≤ s.line_number := by omega
      rw [string_callback_of_ge s _ _ hge, string_feed_of_ge rest s hge]
      constructor
      · intro h1
        exact ⟨h1, fun j ln2 _ hlt => absurd hlt (by omega)⟩
      · exact fun h => h.1

theorem strnlen_P_of_no_nul (r : List Byte) (maxlen : Nat) (h : (0 : Byte) ∉ r) :
    strnlen_P r maxlen = min r.length maxlen := by
  induction r generalizing maxlen with
  | nil => cases maxlen <;> simp [strnlen_P]
  | cons d r ih =>
    cases maxlen with
    | zero => simp [strnlen_P]
    | succ m =>
      have hd : d ≠ 0 := fun hd => h (by simp [hd])
      have hr : (0 : Byte) ∉ r := fun hr => h (List.mem_cons_of_mem _ hr)
      simp only [strnlen_P, List.headD_cons, hd, if_false, List.tail_cons, ih m hr,
        List.length_cons]
      omega

theorem strncmp_P_eq_zero_iff (l r : List Byte) (h : (0 : Byte) ∉ r)
    (hlen : l.length ≤ r.length) :
    strncmp_P l r l.length = 0 ↔ l = r.take l.length := by
  induction l generalizing r with
  | nil => simp [strncmp_P]
  | cons c l ih =>
    cases r with
    | nil => simp at hlen
    | cons d r =>
      have hd : d ≠ 0 := fun hd => h (by simp [hd])
      have hr : (0 : Byte) ∉ r := fun hr => h (List.mem_cons_of_mem _ hr)
      have hlen2 : l.length ≤ r.length := by simpa using hlen
      simp only [List.length_cons, strncmp_P, List.headD_cons, List.tail_cons,
        List.take_succ_cons, List.cons.injEq]
      by_cases hcd : c = d
      · subst hcd
        simp only [ne_eq, not_true_eq_false, if_false, hd, true_and]
        exact ih r hr hlen2
      · simp only [ne_eq, hcd, not_false_eq_true, if_true, false_and, iff_false]
        intro h0
        apply hcd
        apply Fin.ext
        omega

/-- A line shorter than 65535 bytes passes the text comparison against a
NUL-free reference string exactly when it is that string. -/
theorem string_match_iff_eq (l r : List Byte) (h : (0 : Byte) ∉ r) (hl : l.length < 65535) :
    (l.length = strnlen_P r ((l.length + 1) % 65536) % 65536 ∧
      strncmp_P l r l.length = 0) ↔ l = r := by
  rw [Nat.mod_eq_of_lt (show l.length + 1 < 65536 by omega), strnlen_P_of_no_nul r _ h]
  constructor
  · rintro ⟨h1, h2⟩
    have hmin : min r.length (l.length + 1) < 65536 := by omega
    rw [Nat.mod_eq_of_lt hmin] at h1
    have hrl : r.length = l.length := by omega
    rw [strncmp_P_eq_zero_iff l r h (by omega)] at h2
    rw [h2, ← hrl, List.take_length]
  · intro hlr
    subst hlr
    have hmin : min l.length (l.length + 1) = l.length := by omega
    rw [hmin, Nat.mod_eq_of_lt (by omega)]
    refine ⟨rfl, ?_⟩
    rw [strncmp_P_eq_zero_iff l l h (le_refl _), List.take_length]

theorem pgm_read_word_checksums (texts : List (List Byte)) (j : Nat) (hj : j < texts.length) :
    pgm_read_word (texts.map (fun t => fletcher16 t t.length)) j % 65536
      = fletcher16 (texts.getD j []) (texts.getD j []).length := by
  unfold pgm_read_word
  rw [List.getD_eq_getElem _ _ (by simpa using hj), List.getD_eq_getElem _ _ hj,
    List.getElem_map]
  exact Nat.mod_eq_of_lt (fletcher16_lt _ _)

theorem lines_stream_getElem? (lines : List (List Byte)) (j : Nat) (ln : List Byte × Nat)
    (h : (lines_stream lines)[j]? = some ln) :
    j < lines.length ∧ ln = (lines.getD j [], (lines.getD j []).length) := by
  unfold lines_stream at h
  rw [List.getElem?_map, Option.map_eq_some'] at h
  obtain ⟨l, hl, hln⟩ := h
  obtain ⟨hj, hl2⟩ := List.getElem?_eq_some.mp hl
  refine ⟨hj, ?_⟩
  rw [List.getD_eq_getElem _ _ hj, hl2, ← hln]

set_option maxRecDepth 100000 in
/-- C7 (as stated, refuted): on the compiled-in reference data, whose checksum
table is the table of the checksums of the text lines, the stream that
replaces the first line by `JB>01,UUID=0x1818` (same Fletcher-16 checksum,
different text) ends with `is_equal = false` under
`string_comparator_callback` and with `is_equal = true` under
`fletcher16_comparator_callback`. -/
theorem comparators_disagree_on_collision :
    EXPECTED_GATT_DEFNS.map (fun t => fletcher16 t t.length)
      = EXPECTED_GATT_DEFNS_FLETCHER16 ∧
    (string_comparator_feed (comparator_init 5 EXPECTED_GATT_DEFNS)
      (lines_stream [progmem_string "JB>01,UUID=0x1818", line_2, line_3, line_4,
        line_10])).is_equal = false ∧
    (fletcher16_comparator_feed (comparator_init 5 EXPECTED_GATT_DEFNS_FLETCHER16)
      (lines_stream [progmem_string "JB>01,UUID=0x1818", line_2, line_3, line_4,
        line_10])).is_equal = true := by
  decide

/-- C7 (amended): for NUL-free reference text lines and the table of their
`fletcher16` checksums, the same 8-bit `total_lines` within the table, and
every stream of lines shorter than 65535 bytes none of which, at a compared
position `i < min(n, total_lines)`, has the checksum of reference line `i`
without being that line: `string_comparator_callback` and
`fletcher16_comparator_callback`, both run from `is_equal = true` and
`line_number = 0`, end with the same `is_equal`. -/
theorem comparators_agree_without_collision (texts : List (List Byte)) (total_lines : Nat)
    (lines : List (List Byte))
    (hnul : ∀ t ∈ texts, (0 : Byte) ∉ t) (h8 : total_lines < 256)
    (hlen : total_lines ≤ texts.length) (hshort : ∀ l ∈ lines, l.length < 65535)
    (hnc : ∀ i, i < min lines.length total_lines →
      fletcher16 (lines.getD i []) (lines.getD i []).length
        = fletcher16 (texts.getD i []) (texts.getD i []).length →
      lines.getD i [] = texts.getD i []) :
    (string_comparator_feed (comparator_init total_lines texts)
        (lines_stream lines)).is_equal
      = (fletcher16_comparator_feed
          (comparator_init total_lines (texts.map (fun t => fletcher16 t t.length)))
          (lines_stream lines)).is_equal := by
  rw [Bool.eq_iff_iff, string_feed_is_equal_iff _ _ h8, fletcher16_feed_is_equal_iff _ _ h8]
  simp only [comparator_init, Nat.zero_add, true_and]
  have hcase : ∀ j ln, (lines_stream lines)[j]? = some ln → j < total_lines →
      ((ln.2 = strnlen_P (texts.getD j []) ((ln.2 + 1) % 65536) % 65536 ∧
          strncmp_P ln.1 (texts.getD j []) ln.2 = 0) ↔
        pgm_read_word (texts.map (fun t => fletcher16 t t.length)) j % 65536
          = fletcher16 ln.1 ln.2) := by
    intro j ln hj hlt
    obtain ⟨hj1, hln⟩ := lines_stream_getElem? lines j ln hj
    have hjt : j < texts.length := by omega
    have hmem : lines.getD j [] ∈ lines := by
      rw [List.getD_eq_getElem _ _ hj1]
      exact List.getElem_mem _
    have hmemt : texts.getD j [] ∈ texts := by
      rw [List.getD_eq_getElem _ _ hjt]
      exact List.getElem_mem _
    subst hln
    rw [pgm_read_word_checksums texts j hjt]
    simp only
    rw [string_match_iff_eq _ _ (hnul _ hmemt) (hshort _ hmem)]
    constructor
    · intro heq
      rw [heq]
    · intro heq
      exact hnc j (lt_min hj1 hlt) heq.symm
  constructor
  · intro h j ln hj hlt
    exact (hcase j ln hj hlt).mp (h j ln hj hlt)
  · intro h j ln hj hlt
    exact (hcase j ln hj hlt).mpr (h j ln hj hlt)

theorem comparators_agree_without_collision_witness :
    (∀ t ∈ [line_10], (0 : Byte) ∉ t) ∧ 1 < 256 ∧ 1 ≤ [line_10].length ∧
    (∀ l ∈ [line_10, line_1], l.length < 65535) ∧
    (string_comparator_feed (comparator_init 1 [line_10])
        (lines_stream [line_10, line_1])).is_equal
      = (fletcher16_comparator_feed
          (comparator_init 1 ([line_10].map (fun t => fletcher16 t t.length)))
          (lines_stream [line_10, line_1])).is_equal :=
  ⟨by decide, by decide, by decide, by decide,
    comparators_agree_without_collision [line_10] 1 [line_10, line_1]
      (by decide) (by decide) (by decide) (by decide)
      (by
        intro i hi _
        have hi0 : i = 0 := by
          have : i < 1 := lt_of_lt_of_le hi (min_le_right _ _)
          omega
        subst hi0
        rfl)⟩

/-! ### The measurement record built by `update` -/

theorem object_bytes_eq_le_encode (size v : Nat) : object_bytes size v = le_encode size v := by
  induction size generalizing v with
  | zero => rfl
  | succ n ih =>
    unfold le_encode
    rw [List.range_succ_eq_map, List.map_cons, List.map_map, object_bytes, ih]
    unfold le_encode
    congr 1
    · simp
    · apply List.map_congr_left
      intro i _
      apply Fin.ext
      simp only [Function.comp_apply, Nat.succ_eq_add_one, pow_succ, Nat.div_div_eq_div_mul]
      rw [Nat.mul_comm]

theorem le_decode_object_bytes (size v : Nat) :
    le_decode (object_bytes size v) = v % 256 ^ size := by
  induction size generalizing v with
  | zero => simp [object_bytes, le_decode, Nat.mod_one]
  | succ n ih =>
    simp only [object_bytes, le_decode, ih]
    rw [Nat.pow_succ', Nat.mod_mul]

/-- The record handed over by `update`, as the object representations of the
six appended variables laid end to end. -/
theorem update_buffer_eq_objects (cpm_crank cpm_wheel crank_revs crank_ms wheel_revs wheel_ms
    power_watts total_energy_kj : Nat) :
    update_buffer cpm_crank cpm_wheel crank_revs crank_ms wheel_revs wheel_ms power_watts
        total_energy_kj
      = object_bytes 2 (update_flags cpm_crank cpm_wheel)
        ++ object_bytes 2 (update_power power_watts)
        ++ object_bytes 4 wheel_revs
        ++ object_bytes 2 (last_wheel_event_time_cp wheel_ms)
        ++ object_bytes 2 crank_revs
        ++ object_bytes 2 (last_crank_event_time_cp crank_ms) := rfl

theorem update_record_field_power (cpm_crank cpm_wheel crank_revs crank_ms wheel_revs wheel_ms
    power_watts total_energy_kj : Nat) :
    record_field (update_buffer cpm_crank cpm_wheel crank_revs crank_ms wheel_revs wheel_ms
        power_watts total_energy_kj) 2 2 = object_bytes 2 (update_power power_watts) := by
  simp [update_buffer_eq_objects, record_field, object_bytes]

theorem update_record_field_wheel_revs (cpm_crank cpm_wheel crank_revs crank_ms wheel_revs
    wheel_ms power_watts total_energy_kj : Nat) :
    record_field (update_buffer cpm_crank cpm_wheel crank_revs crank_ms wheel_revs wheel_ms
        power_watts total_energy_kj) 4 4 = object_bytes 4 wheel_revs := by
  simp [update_buffer_eq_objects, record_field, object_bytes]

theorem update_record_field_wheel_event_time (cpm_crank cpm_wheel crank_revs crank_ms
    wheel_revs wheel_ms power_watts total_energy_kj : Nat) :
    record_field (update_buffer cpm_crank cpm_wheel crank_revs crank_ms wheel_revs wheel_ms
        power_watts total_energy_kj) 8 2
      = object_bytes 2 (last_wheel_event_time_cp wheel_ms) := by
  simp [update_buffer_eq_objects, record_field, object_bytes]

theorem update_record_field_crank_revs (cpm_crank cpm_wheel crank_revs crank_ms wheel_revs
    wheel_ms power_watts total_energy_kj : Nat) :
    record_field (update_buffer cpm_crank cpm_wheel crank_revs crank_ms wheel_revs wheel_ms
        power_watts total_energy_kj) 10 2 = object_bytes 2 crank_revs := by
  simp [update_buffer_eq_objects, record_field, object_bytes]

theorem update_power_eq_min (power_watts : Nat) :
    update_power power_watts = min power_watts 32767 := by
  unfold update_power
  split <;> omega

/-- While `ms * 2048` fits 32 bits the wheel event time is the exact scaled
timestamp, truncated to 16 bits. -/
theorem last_wheel_event_time_cp_exact (ms : Nat) (h : ms < 2097152) :
    last_wheel_event_time_cp ms = ms * 2048 / 1000 % 65536 := by
  unfold last_wheel_event_time_cp
  rw [Nat.mod_eq_of_lt (show ms * 2048 < 4294967296 by omega)]

/-- While `ms * 1024` fits 32 bits the crank event time is the exact scaled
timestamp, truncated to 16 bits. -/
theorem last_crank_event_time_cp_exact (ms : Nat) (h : ms < 4194304) :
    last_crank_event_time_cp ms = ms * 1024 / 1000 % 65536 := by
  unfold last_crank_event_time_cp
  rw [Nat.mod_eq_of_lt (show ms * 1024 < 4294967296 by omega)]

/-- C8: for every input sample the buffer `update` hands to the transport has
length 14 and is the concatenation, without padding, of the little-endian
encodings of flags (2 bytes), power (2), wheel_revs (4), wheel_event_time (2),
crank_revs (2) and crank_event_time (2), in this order; the wheel_revs and
crank_revs fields hold the inputs unmodified; this buffer is the argument of
the transport call whose answer `update` returns. -/
theorem update_buffer_layout (cpm_crank cpm_wheel crank_revs crank_ms wheel_revs wheel_ms
    power_watts total_energy_kj : Nat)
    (hcrank : crank_revs < 65536) (hwheel : wheel_revs < 4294967296) :
    (update_buffer cpm_crank cpm_wheel crank_revs crank_ms wheel_revs wheel_ms power_watts
        total_energy_kj).length = 14 ∧
    update_buffer cpm_crank cpm_wheel crank_revs crank_ms wheel_revs wheel_ms power_watts
        total_energy_kj
      = le_encode 2 (update_flags cpm_crank cpm_wheel)
        ++ le_encode 2 (update_power power_watts)
        ++ le_encode 4 wheel_revs
        ++ le_encode 2 (last_wheel_event_time_cp wheel_ms)
        ++ le_encode 2 crank_revs
        ++ le_encode 2 (last_crank_event_time_cp crank_ms) ∧
    le_decode (record_field (update_buffer cpm_crank cpm_wheel crank_revs crank_ms wheel_revs
        wheel_ms power_watts total_energy_kj) 4 4) = wheel_revs ∧
    le_decode (record_field (update_buffer cpm_crank cpm_wheel crank_revs crank_ms wheel_revs
        wheel_ms power_watts total_energy_kj) 10 2) = crank_revs ∧
    (∀ (setChar : Nat → List Byte → Bool) (cp_measurement_id : Nat),
      update setChar cp_measurement_id cpm_crank cpm_wheel crank_revs crank_ms wheel_revs
          wheel_ms power_watts total_energy_kj
        = setChar cp_measurement_id (update_buffer cpm_crank cpm_wheel crank_revs crank_ms
            wheel_revs wheel_ms power_watts total_energy_kj)) := by
  refine ⟨?_, ?_, ?_, ?_, fun _ _ => rfl⟩
  · rw [update_buffer_eq_objects]
    simp [object_bytes]
  · rw [update_buffer_eq_objects]
    simp only [object_bytes_eq_le_encode]
  · rw [update_record_field_wheel_revs, le_decode_object_bytes]
    exact Nat.mod_eq_of_lt hwheel
  · rw [update_record_field_crank_revs, le_decode_object_bytes]
    exact Nat.mod_eq_of_lt hcrank

theorem update_buffer_layout_witness :
    (1675 : Nat) < 65536 ∧ (5199 : Nat) < 4294967296 ∧
    update_buffer 0x20 0x10 1675 62850 5199 1290 156 195
      = le_encode 2 (update_flags 0x20 0x10) ++ le_encode 2 (update_power 156)
        ++ le_encode 4 5199 ++ le_encode 2 (last_wheel_event_time_cp 1290)
        ++ le_encode 2 1675 ++ le_encode 2 (last_crank_event_time_cp 62850) :=
  ⟨by decide, by decide,
    (update_buffer_layout 0x20 0x10 1675 62850 5199 1290 156 195 (by decide) (by decide)).2.1⟩

/-- C9: for every `power_watts` (in particular every 16-bit one) the power
field (bytes 2..3, little-endian) of the record produced by `update` is
`min(power_watts, 32767)`, the top bit of its high byte is clear, and
`power_watts = 40000` gives the bytes FF 7F, i.e. 32767. -/
theorem update_power_field (cpm_crank cpm_wheel crank_revs crank_ms wheel_revs wheel_ms
    power_watts total_energy_kj : Nat) :
    le_decode (record_field (update_buffer cpm_crank cpm_wheel crank_revs crank_ms wheel_revs
        wheel_ms power_watts total_energy_kj) 2 2) = min power_watts 32767 ∧
    ((update_buffer cpm_crank cpm_wheel crank_revs crank_ms wheel_revs
        wheel_ms power_watts total_energy_kj).getD 3 0).val < 128 ∧
    record_field (update_buffer cpm_crank cpm_wheel crank_revs crank_ms wheel_revs
        wheel_ms 40000 total_energy_kj) 2 2 = [0xFF, 0x7F] := by
  have hmin := update_power_eq_min power_watts
  refine ⟨?_, ?_, ?_⟩
  · rw [update_record_field_power, le_decode_object_bytes, hmin]
    omega
  · have h3 : ((update_buffer cpm_crank cpm_wheel crank_revs crank_ms wheel_revs
        wheel_ms power_watts total_energy_kj).getD 3 0).val
        = update_power power_watts / 256 % 256 := by
      simp [update_buffer_eq_objects, object_bytes]
    rw [h3, hmin]
    omega
  · rw [update_record_field_power]
    decide

/-- C10 (the code at a failing input): for the 32-bit timestamp
`last_wheel_rev_timestamp_ms = 2097152` the product `ms * 2048` is `2^32` and
wraps to 0 in `uint32_t`, so the wheel_event_time field (bytes 8..9) of the
record produced by `update` is 0, whereas `floor(ms * 2048 / 1000) mod 65536`
is 35127. -/
theorem update_wheel_event_time_overflow :
    (2097152 : Nat) < 4294967296 ∧
    record_field (update_buffer 0x20 0x10 1675 62850 5199 2097152 156 195) 8 2 = [0, 0] ∧
    le_decode (record_field (update_buffer 0x20 0x10 1675 62850 5199 2097152 156 195) 8 2)
      = 0 ∧
    2097152 * 2048 / 1000 % 65536 = 35127 := by
  refine ⟨by decide, ?_, ?_, by decide⟩
  · rw [update_record_field_wheel_event_time]
    decide
  · rw [update_record_field_wheel_event_time]
    decide


theorem update_record_field_flags (cpm_crank cpm_wheel crank_revs crank_ms wheel_revs
    wheel_ms power_watts total_energy_kj : Nat) :
    record_field (update_buffer cpm_crank cpm_wheel crank_revs crank_ms wheel_revs wheel_ms
        power_watts total_energy_kj) 0 2
      = object_bytes 2 (update_flags cpm_crank cpm_wheel) := by
  simp [update_buffer_eq_objects, record_field, object_bytes]

theorem update_record_field_crank_event_time (cpm_crank cpm_wheel crank_revs crank_ms
    wheel_revs wheel_ms power_watts total_energy_kj : Nat) :
    record_field (update_buffer cpm_crank cpm_wheel crank_revs crank_ms wheel_revs wheel_ms
        power_watts total_energy_kj) 12 2
      = object_bytes 2 (last_crank_event_time_cp crank_ms) := by
  simp [update_buffer_eq_objects, record_field, object_bytes]

/-- C11 (as stated, refuted): for `wheel_revs = 5199` and
`last_wheel_rev_timestamp_ms = 1290` the wheel_event_time field of the record
produced by `update` is not 2642. -/
theorem update_wheel_event_time_1290_ne_2642 :
    le_decode (record_field (update_buffer 0x20 0x10 1675 62850 5199 1290 156 195) 8 2)
      ≠ 2642 := by
  rw [update_record_field_wheel_event_time]
  decide

/-- C11 (amended): encoding a sample with `wheel_revs = 5199` and
`last_wheel_rev_timestamp_ms = 1290` with `update` produces a record whose
wheel_event_time field equals 2641, which is `floor(1290 * 2048 / 1000)`, and
whose wheel_revs field equals 5199. -/
theorem update_wheel_event_time_1290 (cpm_crank cpm_wheel crank_revs crank_ms power_watts
    total_energy_kj : Nat) :
    le_decode (record_field (update_buffer cpm_crank cpm_wheel crank_revs crank_ms 5199 1290
        power_watts total_energy_kj) 8 2) = 2641 ∧
    1290 * 2048 / 1000 = 2641 ∧
    le_decode (record_field (update_buffer cpm_crank cpm_wheel crank_revs crank_ms 5199 1290
        power_watts total_energy_kj) 4 4) = 5199 := by
  refine ⟨?_, by decide, ?_⟩
  · rw [update_record_field_wheel_event_time]
    decide
  · rw [update_record_field_wheel_revs]
    decide

/-- C12 (the code at a failing input): for the 32-bit timestamp
`last_crank_rev_timestamp_ms = 4194304` the product `ms * 1024` is `2^32` and
wraps to 0 in `uint32_t`, so the crank_event_time field (bytes 12..13) of the
record produced by `update` is 0, whereas `floor(ms * 1024 / 1000) mod 65536`
is 35127. -/
theorem update_crank_event_time_overflow :
    (4194304 : Nat) < 4294967296 ∧
    record_field (update_buffer 0x20 0x10 1675 4194304 5199 1290 156 195) 12 2 = [0, 0] ∧
    le_decode (record_field (update_buffer 0x20 0x10 1675 4194304 5199 1290 156 195) 12 2)
      = 0 ∧
    4194304 * 1024 / 1000 % 65536 = 35127 := by
  refine ⟨by decide, ?_, ?_, by decide⟩
  · rw [update_record_field_crank_event_time]
    decide
  · rw [update_record_field_crank_event_time]
    decide

/-- C13: for every sample with `power_watts <= 32767`,
`last_wheel_rev_timestamp_ms < 32000` and `last_crank_rev_timestamp_ms < 64000`
(counts within their 16 and 32 bits), decoding the record produced by `update`
as the little-endian fields flags / power / wheel_revs / wheel_event_time /
crank_revs / crank_event_time gives the flags value, `power_watts`,
`wheel_revs`, `floor(wheel_ms * 2048 / 1000)`, `crank_revs` and
`floor(crank_ms * 1024 / 1000)`, untruncated. -/
theorem update_round_trip (cpm_crank cpm_wheel crank_revs crank_ms wheel_revs wheel_ms
    power_watts total_energy_kj : Nat)
    (hpower : power_watts ≤ 32767) (hwheel_ms : wheel_ms < 32000)
    (hcrank_ms : crank_ms < 64000) (hcrank : crank_revs < 65536)
    (hwheel : wheel_revs < 4294967296) :
    decode_record (update_buffer cpm_crank cpm_wheel crank_revs crank_ms wheel_revs wheel_ms
        power_watts total_energy_kj)
      = (update_flags cpm_crank cpm_wheel, power_watts, wheel_revs,
          wheel_ms * 2048 / 1000, crank_revs, crank_ms * 1024 / 1000) := by
  unfold decode_record
  rw [update_record_field_flags, update_record_field_power, update_record_field_wheel_revs,
    update_record_field_wheel_event_time, update_record_field_crank_revs,
    update_record_field_crank_event_time]
  simp only [le_decode_object_bytes]
  rw [last_wheel_event_time_cp_exact wheel_ms (by omega),
    last_crank_event_time_cp_exact crank_ms (by omega), update_power_eq_min]
  have hflags : update_flags cpm_crank cpm_wheel < 65536 := by
    unfold update_flags
    exact Nat.mod_lt _ (by decide)
  have h2 : (256 : Nat) ^ 2 = 65536 := by decide
  have h4 : (256 : Nat) ^ 4 = 4294967296 := by decide
  rw [h2, h4]
  have e1 : update_flags cpm_crank cpm_wheel % 65536 = update_flags cpm_crank cpm_wheel :=
    Nat.mod_eq_of_lt hflags
  have e2 : min power_watts 32767 % 65536 = power_watts := by omega
  have e3 : wheel_revs % 4294967296 = wheel_revs := Nat.mod_eq_of_lt hwheel
  have e4 : wheel_ms * 2048 / 1000 % 65536 % 65536 = wheel_ms * 2048 / 1000 := by omega
  have e5 : crank_revs % 65536 = crank_revs := Nat.mod_eq_of_lt hcrank
  have e6 : crank_ms * 1024 / 1000 % 65536 % 65536 = crank_ms * 1024 / 1000 := by omega
  rw [e1, e2, e3, e4, e5, e6]

theorem update_round_trip_witness :
    (156 : Nat) ≤ 32767 ∧ (1290 : Nat) < 32000 ∧ (62850 : Nat) < 64000 ∧
    (1675 : Nat) < 65536 ∧ (5199 : Nat) < 4294967296 ∧
    decode_record (update_buffer 0x20 0x10 1675 62850 5199 1290 156 195)
      = (update_flags 0x20 0x10, 156, 5199, 1290 * 2048 / 1000, 1675, 62850 * 1024 / 1000) :=
  ⟨by decide, by decide, by decide, by decide, by decide,
    update_round_trip 0x20 0x10 1675 62850 5199 1290 156 195
      (by decide) (by decide) (by decide) (by decide) (by decide)⟩

/-- C14: for every input sample the flags field (bytes 0..1, little-endian)
of the record produced by `update` is the constant
`CPM_CRANK_REV_DATA_PRESENT | CPM_WHEEL_REV_DATA_PRESENT` (two 16-bit
constants); no byte of the record depends on `total_energy_kj`; and with the
standard values wheel = 0x0010, crank = 0x0020, energy = 0x0800 the field is
0x0030 (bytes 30 00), the union of the wheel and crank bits with the energy
bit clear. -/
theorem update_flags_field (cpm_crank cpm_wheel crank_revs crank_ms wheel_revs wheel_ms
    power_watts total_energy_kj : Nat) (hc : cpm_crank < 65536) (hw : cpm_wheel < 65536) :
    le_decode (record_field (update_buffer cpm_crank cpm_wheel crank_revs crank_ms wheel_revs
        wheel_ms power_watts total_energy_kj) 0 2) = cpm_crank ||| cpm_wheel ∧
    (∀ other_energy_kj,
      update_buffer cpm_crank cpm_wheel crank_revs crank_ms wheel_revs wheel_ms power_watts
          other_energy_kj
        = update_buffer cpm_crank cpm_wheel crank_revs crank_ms wheel_revs wheel_ms
            power_watts total_energy_kj) ∧
    record_field (update_buffer 0x0020 0x0010 crank_revs crank_ms wheel_revs wheel_ms
        power_watts total_energy_kj) 0 2 = [0x30, 0x00] ∧
    ((0x0020 : Nat) ||| 0x0010) = 0x0030 ∧
    ((0x0020 : Nat) ||| 0x0010) &&& 0x0800 = 0 := by
  refine ⟨?_, fun _ => rfl, ?_, by decide, by decide⟩
  · rw [update_record_field_flags, le_decode_object_bytes]
    unfold update_flags
    have hor : cpm_crank ||| cpm_wheel < 2 ^ 16 := Nat.or_lt_two_pow hc hw
    have h2 : (256 : Nat) ^ 2 = 65536 := by decide
    rw [h2]
    omega
  · rw [update_record_field_flags]
    decide

theorem update_flags_field_witness :
    (0x0020 : Nat) < 65536 ∧ (0x0010 : Nat) < 65536 ∧
    le_decode (record_field (update_buffer 0x0020 0x0010 1675 62850 5199 1290 156 195) 0 2)
      = 0x0020 ||| 0x0010 :=
  ⟨by decide, by decide,
    (update_flags_field 0x0020 0x0010 1675 62850 5199 1290 156 195 (by decide) (by decide)).1⟩

/-! ### Provisioning and bring-up -/

theorem setup_cycling_power_feature_history (t : Transport) (obj : BLECyclingPower)
    (hist : List Command) :
    (setup_cycling_power_feature t obj hist).2
      = hist ++ [.addService 0x1818, .addCharacteristic 0x2A65 0x02 4 4 0,
          .addCharacteristic 0x2A63 0x12 14 14 0, .addCharacteristic 0x2A5D 0x02 1 1 0] := by
  simp [setup_cycling_power_feature, issue, CYCLING_POWER_SERVICE_UUID,
    CYCLING_POWER_FEATURE_CHAR_UUID, CYCLING_POWER_MEASUREMENT_CHAR_UUID,
    SENSOR_LOCATION_CHAR_UUID, GATT_CHARS_PROPERTIES_READ, GATT_CHARS_PROPERTIES_NOTIFY,
    BLE_DATATYPE_AUTO]

theorem load_or_setup_gatts_eq_setup (t : Transport) (obj : BLECyclingPower)
    (hist : List Command) :
    load_or_setup_gatts t obj hist
      = setup_cycling_power_feature t obj (hist ++ [.factoryReset, .clear]) := by
  simp [load_or_setup_gatts, gatts_as_expected, issue]

theorem load_or_setup_gatts_history (t : Transport) (obj : BLECyclingPower)
    (hist : List Command) :
    (load_or_setup_gatts t obj hist).2
      = hist ++ [.factoryReset, .clear, .addService 0x1818,
          .addCharacteristic 0x2A65 0x02 4 4 0, .addCharacteristic 0x2A63 0x12 14 14 0,
          .addCharacteristic 0x2A5D 0x02 1 1 0] := by
  rw [load_or_setup_gatts_eq_setup, setup_cycling_power_feature_history]
  simp

theorem load_or_setup_gatts_fields (t : Transport) (obj : BLECyclingPower)
    (hist : List Command) :
    (load_or_setup_gatts t obj hist).1 =
      { obj with
        cp_service_id := some (t (hist ++ [.factoryReset, .clear, .addService 0x1818]) % 256)
        cp_feature_id := some (t (hist ++ [.factoryReset, .clear, .addService 0x1818,
          .addCharacteristic 0x2A65 0x02 4 4 0]) % 256)
        cp_measurement_id := some (t (hist ++ [.factoryReset, .clear, .addService 0x1818,
          .addCharacteristic 0x2A65 0x02 4 4 0, .addCharacteristic 0x2A63 0x12 14 14 0]) % 256)
        cp_sensor_location_id := some (t (hist ++ [.factoryReset, .clear,
          .addService 0x1818, .addCharacteristic 0x2A65 0x02 4 4 0,
          .addCharacteristic 0x2A63 0x12 14 14 0, .addCharacteristic 0x2A5D 0x02 1 1 0])
            % 256) } := by
  rw [load_or_setup_gatts_eq_setup]
  simp [setup_cycling_power_feature, issue, CYCLING_POWER_SERVICE_UUID,
    CYCLING_POWER_FEATURE_CHAR_UUID, CYCLING_POWER_MEASUREMENT_CHAR_UUID,
    SENSOR_LOCATION_CHAR_UUID, GATT_CHARS_PROPERTIES_READ, GATT_CHARS_PROPERTIES_NOTIFY,
    BLE_DATATYPE_AUTO]

theorem initialize_history (slrc cpf_crank cpf_wheel : Nat) (t : Transport)
    (obj : BLECyclingPower) (hist : List Command) :
    (initialize_BLECyclingPower slrc cpf_crank cpf_wheel t obj hist).2
      = (load_or_setup_gatts t obj hist).2 ++
        [.reset, .sendCommandCheckOK "AT+GAPDEVNAME=PeloMon",
         .sendCommandCheckOK
          "AT+GAPSETADVDATA=02-01-06-02-0a-00-11-06-9e-ca-dc-24-0e-e5-a9-e0-93-f3-a3-b5-01-00-40-6e-03-02-18-18",
         .reset,
         .setCharValue (load_or_setup_gatts t obj hist).1.cp_sensor_location_id slrc,
         .setCharValue (load_or_setup_gatts t obj hist).1.cp_feature_id
            ((cpf_crank ||| cpf_wheel) % 4294967296),
         .setCharBuffer (load_or_setup_gatts t obj hist).1.sc_control_point_id [0]] := by
  simp [initialize_BLECyclingPower, issue]

theorem initialize_object (slrc cpf_crank cpf_wheel : Nat) (t : Transport)
    (obj : BLECyclingPower) (hist : List Command) :
    (initialize_BLECyclingPower slrc cpf_crank cpf_wheel t obj hist).1
      = (load_or_setup_gatts t obj hist).1 := rfl

/-- C15 (as stated, refuted): with a transport that acknowledges nothing (every
command, the factory reset and the four creation commands included, is
answered 0), `initialize` on a fresh object still issues all thirteen
commands, the creation, advertising and seeding commands after the failed
factory reset included. -/
theorem initialize_ignores_failure :
    (fun _ => 0 : Transport) [Command.factoryReset] = 0 ∧
    (initialize_BLECyclingPower 6 8 4 (fun _ => 0) BLECyclingPower_new []).2
      = [.factoryReset, .clear, .addService 0x1818, .addCharacteristic 0x2A65 0x02 4 4 0,
         .addCharacteristic 0x2A63 0x12 14 14 0, .addCharacteristic 0x2A5D 0x02 1 1 0,
         .reset, .sendCommandCheckOK "AT+GAPDEVNAME=PeloMon",
         .sendCommandCheckOK
          "AT+GAPSETADVDATA=02-01-06-02-0a-00-11-06-9e-ca-dc-24-0e-e5-a9-e0-93-f3-a3-b5-01-00-40-6e-03-02-18-18",
         .reset, .setCharValue (some 0) 6, .setCharValue (some 0) 12,
         .setCharBuffer none [0]] := by
  decide

/-- C15 (amended): for every behaviour of the transport collaborator, whether
or not the factory-reset command or a creation command is acknowledged,
`initialize` issues the same thirteen commands in the same order (factory
reset, clear, the service, the three characteristics, reset, device name,
advertising data, reset, three seeding writes); an answer only determines the
identifier stored and later written to, and `initialize` returns no value
through which a failure could reach its caller. -/
theorem initialize_unconditional (slrc cpf_crank cpf_wheel : Nat) (t : Transport)
    (obj : BLECyclingPower) (hist : List Command) :
    (initialize_BLECyclingPower slrc cpf_crank cpf_wheel t obj hist).2
      = hist ++
        [.factoryReset, .clear, .addService 0x1818, .addCharacteristic 0x2A65 0x02 4 4 0,
         .addCharacteristic 0x2A63 0x12 14 14 0, .addCharacteristic 0x2A5D 0x02 1 1 0,
         .reset, .sendCommandCheckOK "AT+GAPDEVNAME=PeloMon",
         .sendCommandCheckOK
          "AT+GAPSETADVDATA=02-01-06-02-0a-00-11-06-9e-ca-dc-24-0e-e5-a9-e0-93-f3-a3-b5-01-00-40-6e-03-02-18-18",
         .reset,
         .setCharValue
            (initialize_BLECyclingPower slrc cpf_crank cpf_wheel t obj hist).1.cp_sensor_location_id
            slrc,
         .setCharValue
            (initialize_BLECyclingPower slrc cpf_crank cpf_wheel t obj hist).1.cp_feature_id
            ((cpf_crank ||| cpf_wheel) % 4294967296),
         .setCharBuffer
            (initialize_BLECyclingPower slrc cpf_crank cpf_wheel t obj hist).1.sc_control_point_id
            [0]] ∧
    (initialize_BLECyclingPower slrc cpf_crank cpf_wheel t obj hist).2.length
      = hist.length + 13 := by
  rw [initialize_history, initialize_object, load_or_setup_gatts_history]
  simp

/-- C16: `load_or_setup_gatts` issues, after the factory reset and the clear,
exactly one `addService` for UUID 0x1818 and then three `addCharacteristic`
calls for UUIDs 0x2A65, 0x2A63 and 0x2A5D, in this order and nothing else; the
four returned identifiers are stored in `cp_service_id`, `cp_feature_id`,
`cp_measurement_id` and `cp_sensor_location_id`, the other fields are kept,
and pairwise distinct identifiers returned for the three characteristics are
stored as pairwise distinct identifiers. -/
theorem load_or_setup_gatts_provisioning (t : Transport) (obj : BLECyclingPower)
    (hist : List Command) :
    (load_or_setup_gatts t obj hist).2
      = hist ++ [.factoryReset, .clear, .addService 0x1818,
          .addCharacteristic 0x2A65 0x02 4 4 0, .addCharacteristic 0x2A63 0x12 14 14 0,
          .addCharacteristic 0x2A5D 0x02 1 1 0] ∧
    (((load_or_setup_gatts t obj hist).2.drop hist.length).filter is_creation_command
      = [.addService 0x1818, .addCharacteristic 0x2A65 0x02 4 4 0,
          .addCharacteristic 0x2A63 0x12 14 14 0, .addCharacteristic 0x2A5D 0x02 1 1 0]) ∧
    (load_or_setup_gatts t obj hist).1 =
      { obj with
        cp_service_id := some (t (hist ++ [.factoryReset, .clear, .addService 0x1818]) % 256)
        cp_feature_id := some (t (hist ++ [.factoryReset, .clear, .addService 0x1818,
          .addCharacteristic 0x2A65 0x02 4 4 0]) % 256)
        cp_measurement_id := some (t (hist ++ [.factoryReset, .clear, .addService 0x1818,
          .addCharacteristic 0x2A65 0x02 4 4 0, .addCharacteristic 0x2A63 0x12 14 14 0]) % 256)
        cp_sensor_location_id := some (t (hist ++ [.factoryReset, .clear,
          .addService 0x1818, .addCharacteristic 0x2A65 0x02 4 4 0,
          .addCharacteristic 0x2A63 0x12 14 14 0, .addCharacteristic 0x2A5D 0x02 1 1 0])
            % 256) } ∧
    (t (hist ++ [.factoryReset, .clear, .addService 0x1818,
          .addCharacteristic 0x2A65 0x02 4 4 0]) % 256
        ≠ t (hist ++ [.factoryReset, .clear, .addService 0x1818,
          .addCharacteristic 0x2A65 0x02 4 4 0, .addCharacteristic 0x2A63 0x12 14 14 0]) % 256 →
      t (hist ++ [.factoryReset, .clear, .addService 0x1818,
          .addCharacteristic 0x2A65 0x02 4 4 0]) % 256
        ≠ t (hist ++ [.factoryReset, .clear, .addService 0x1818,
          .addCharacteristic 0x2A65 0x02 4 4 0, .addCharacteristic 0x2A63 0x12 14 14 0,
          .addCharacteristic 0x2A5D 0x02 1 1 0]) % 256 →
      t (hist ++ [.factoryReset, .clear, .addService 0x1818,
          .addCharacteristic 0x2A65 0x02 4 4 0, .addCharacteristic 0x2A63 0x12 14 14 0]) % 256
        ≠ t (hist ++ [.factoryReset, .clear, .addService 0x1818,
          .addCharacteristic 0x2A65 0x02 4 4 0, .addCharacteristic 0x2A63 0x12 14 14 0,
          .addCharacteristic 0x2A5D 0x02 1 1 0]) % 256 →
      (load_or_setup_gatts t obj hist).1.cp_feature_id
          ≠ (load_or_setup_gatts t obj hist).1.cp_measurement_id ∧
        (load_or_setup_gatts t obj hist).1.cp_feature_id
          ≠ (load_or_setup_gatts t obj hist).1.cp_sensor_location_id ∧
        (load_or_setup_gatts t obj hist).1.cp_measurement_id
          ≠ (load_or_setup_gatts t obj hist).1.cp_sensor_location_id) := by
  refine ⟨load_or_setup_gatts_history t obj hist, ?_, load_or_setup_gatts_fields t obj hist, ?_⟩
  · rw [load_or_setup_gatts_history]
    simp [is_creation_command]
  · intro h12 h13 h23
    rw [load_or_setup_gatts_fields]
    simp only [ne_eq, Option.some.injEq]
    exact ⟨h12, h13, h23⟩

theorem load_or_setup_gatts_provisioning_witness :
    (load_or_setup_gatts (fun h => h.length) BLECyclingPower_new []).1.cp_feature_id
        ≠ (load_or_setup_gatts (fun h => h.length) BLECyclingPower_new []).1.cp_measurement_id ∧
      (load_or_setup_gatts (fun h => h.length) BLECyclingPower_new []).1.cp_feature_id
        ≠ (load_or_setup_gatts (fun h => h.length)
            BLECyclingPower_new []).1.cp_sensor_location_id ∧
      (load_or_setup_gatts (fun h => h.length) BLECyclingPower_new []).1.cp_measurement_id
        ≠ (load_or_setup_gatts (fun h => h.length)
            BLECyclingPower_new []).1.cp_sensor_location_id :=
  (load_or_setup_gatts_provisioning (fun h => h.length) BLECyclingPower_new []).2.2.2
    (by decide) (by decide) (by decide)

/-- C17: for every state of the object and of the transport,
`gatts_as_expected` returns false and leaves the command history as it was (no
transport command, no comparator run); so every call of `load_or_setup_gatts`
issues the factory reset, then the clear of the in-memory catalog, and then
runs `setup_cycling_power_feature` on the history so extended. -/
theorem load_or_setup_gatts_always_reprovisions (t : Transport) (obj : BLECyclingPower)
    (hist : List Command) :
    gatts_as_expected t obj hist = (false, hist) ∧
    load_or_setup_gatts t obj hist
      = setup_cycling_power_feature t obj (hist ++ [.factoryReset, .clear]) ∧
    (load_or_setup_gatts t obj hist).2
      = hist ++ [.factoryReset, .clear]
          ++ ((setup_cycling_power_feature t obj (hist ++ [.factoryReset, .clear])).2.drop
                (hist.length + 2)) ∧
    ((setup_cycling_power_feature t obj (hist ++ [.factoryReset, .clear])).2.drop
        (hist.length + 2))
      = [.addService 0x1818, .addCharacteristic 0x2A65 0x02 4 4 0,
          .addCharacteristic 0x2A63 0x12 14 14 0, .addCharacteristic 0x2A5D 0x02 1 1 0] := by
  refine ⟨rfl, load_or_setup_gatts_eq_setup t obj hist, ?_, ?_⟩
  · rw [load_or_setup_gatts_history, setup_cycling_power_feature_history]
    simp
  · rw [setup_cycling_power_feature_history]
    simp

/-! ### A text match implies a checksum match -/

theorem strncmp_P_eq_zero_iff_take (n : Nat) (l r : List Byte) (h : (0 : Byte) ∉ r)
    (hn : n ≤ r.length) : strncmp_P l r n = 0 ↔ l.take n = r.take n := by
  induction n generalizing l r with
  | zero => simp [strncmp_P]
  | succ n ih =>
    cases r with
    | nil => simp at hn
    | cons d r =>
      have hd : d ≠ 0 := fun hd => h (by simp [hd])
      have hr : (0 : Byte) ∉ r := fun hr => h (List.mem_cons_of_mem _ hr)
      have hn2 : n ≤ r.length := by simpa using hn
      cases l with
      | nil =>
        have hd2 : ¬ (0 : Byte) = d := fun e => hd e.symm
        have hv : d.val ≠ 0 := fun e => hd (Fin.ext e)
        simp only [strncmp_P, List.headD_nil, List.headD_cons, ne_eq, hd2, not_false_eq_true,
          if_true, List.take_nil, List.take_succ_cons]
        constructor
        · intro h0
          exfalso
          have h1 : ((0 : Byte).val : Int) = 0 := rfl
          omega
        · intro h0
          exact absurd h0 (by simp)
      | cons c l =>
        simp only [strncmp_P, List.headD_cons, List.tail_cons, List.take_succ_cons,
          List.cons.injEq]
        by_cases hcd : c = d
        · subst hcd
          simp only [ne_eq, not_true_eq_false, if_false, hd, true_and]
          exact ih l r hr hn2
        · simp only [ne_eq, hcd, not_false_eq_true, if_true, false_and, iff_false]
          intro h0
          apply hcd
          apply Fin.ext
          omega

/-- A text match against a NUL-free reference string forces the first
`line_len` bytes of the line buffer to be that string, whatever bytes (NUL
included) the buffer holds. -/
theorem string_match_take_eq (l r : List Byte) (line_len : Nat) (h : (0 : Byte) ∉ r)
    (hlen : line_len = strnlen_P r ((line_len + 1) % 65536) % 65536)
    (hcmp : strncmp_P l r line_len = 0) : l.take line_len = r ∧ r.length = line_len := by
  rw [strnlen_P_of_no_nul r _ h] at hlen
  have hrl : r.length = line_len := by omega
  rw [strncmp_P_eq_zero_iff_take line_len l r h (by omega)] at hcmp
  rw [hcmp, ← hrl, List.take_length]
  exact ⟨rfl, rfl⟩

theorem fletcher16_loop_take (n : Nat) (l : List Byte) (lo hi : Nat) :
    fletcher16_loop l n lo hi = fletcher16_loop (l.take n) n lo hi := by
  induction n generalizing l lo hi with
  | zero => rfl
  | succ n ih =>
    cases l with
    | nil => rfl
    | cons c l =>
      simp only [fletcher16_loop, List.headD_cons, List.tail_cons, List.take_succ_cons]
      exact ih l _ _

theorem fletcher16_take (l : List Byte) (n : Nat) :
    fletcher16 l n = fletcher16 (l.take n) n := by
  unfold fletcher16
  rw [fletcher16_loop_take]

/-- C18: for every table of NUL-terminated reference text lines, the table of
their `fletcher16` checksums, every 8-bit `total_lines` not exceeding the
table length and every stream of `(linebuf, line_len)` pairs: if
`string_comparator_callback` run over the stream from `is_equal = true`,
`line_number = 0` ends with `is_equal = true`, then so does
`fletcher16_comparator_callback` run over the same stream; a text match at a
compared position forces the first `line_len` bytes of the line to be the
reference line, NUL bytes in the buffer notwithstanding. -/
theorem string_match_implies_checksum_match (texts : List (List Byte)) (total_lines : Nat)
    (stream : List (List Byte × Nat))
    (hnul : ∀ t ∈ texts, (0 : Byte) ∉ t) (h8 : total_lines < 256)
    (hlen : total_lines ≤ texts.length)
    (hstr : (string_comparator_feed (comparator_init total_lines texts) stream).is_equal
      = true) :
    (fletcher16_comparator_feed
        (comparator_init total_lines (texts.map (fun t => fletcher16 t t.length)))
        stream).is_equal = true ∧
    (∀ j ln, stream[j]? = some ln → j < total_lines →
      ln.1.take ln.2 = texts.getD j []) := by
  rw [string_feed_is_equal_iff _ _ h8] at hstr
  simp only [comparator_init, Nat.zero_add, true_and] at hstr
  have hbytes : ∀ j ln, stream[j]? = some ln → j < total_lines →
      ln.1.take ln.2 = texts.getD j [] ∧ (texts.getD j []).length = ln.2 := by
    intro j ln hj hlt
    have hjt : j < texts.length := by omega
    have hmemt : texts.getD j [] ∈ texts := by
      rw [List.getD_eq_getElem _ _ hjt]
      exact List.getElem_mem _
    obtain ⟨h1, h2⟩ := hstr j ln hj hlt
    exact string_match_take_eq ln.1 (texts.getD j []) ln.2 (hnul _ hmemt) h1 h2
  refine ⟨?_, fun j ln hj hlt => (hbytes j ln hj hlt).1⟩
  rw [fletcher16_feed_is_equal_iff _ _ h8]
  simp only [comparator_init, Nat.zero_add, true_and]
  intro j ln hj hlt
  obtain ⟨htake, hl⟩ := hbytes j ln hj hlt
  rw [pgm_read_word_checksums texts j (by omega), fletcher16_take ln.1 ln.2, htake, hl]

theorem string_match_implies_checksum_match_witness :
    (∀ t ∈ EXPECTED_GATT_DEFNS, (0 : Byte) ∉ t) ∧ 5 < 256 ∧
    5 ≤ EXPECTED_GATT_DEFNS.length ∧
    (string_comparator_feed (comparator_init 5 EXPECTED_GATT_DEFNS)
      [(line_1 ++ [0, 65], 17), (line_2, 74)]).is_equal = true ∧
    (fletcher16_comparator_feed
      (comparator_init 5 (EXPECTED_GATT_DEFNS.map (fun t => fletcher16 t t.length)))
      [(line_1 ++ [0, 65], 17), (line_2, 74)]).is_equal = true :=
  ⟨by decide, by decide, by decide, by decide,
    (string_match_implies_checksum_match EXPECTED_GATT_DEFNS 5
      [(line_1 ++ [0, 65], 17), (line_2, 74)] (by decide) (by decide) (by decide)
      (by decide)).1⟩

/-! ### Identifier fields and the reference catalog -/

/-- C19 (the code at the failing input): in every run of `initialize` the
last command is the seeding write `setChar(sc_control_point_id, &zero, 1)`
with the value the field had before the run, a field the run never assigns;
on a freshly constructed object it holds no assigned identifier at all. The
other two seeding writes use `cp_sensor_location_id` and `cp_feature_id`,
which the run did assign from answers of the transport. -/
theorem initialize_control_point_id_unassigned (slrc cpf_crank cpf_wheel : Nat)
    (t : Transport) (obj : BLECyclingPower) (hist : List Command) :
    (initialize_BLECyclingPower slrc cpf_crank cpf_wheel t obj hist).2.drop (hist.length + 10)
      = [.setCharValue
            (initialize_BLECyclingPower slrc cpf_crank cpf_wheel t obj hist).1.cp_sensor_location_id
            slrc,
         .setCharValue
            (initialize_BLECyclingPower slrc cpf_crank cpf_wheel t obj hist).1.cp_feature_id
            ((cpf_crank ||| cpf_wheel) % 4294967296),
         .setCharBuffer obj.sc_control_point_id [0]] ∧
    (initialize_BLECyclingPower slrc cpf_crank cpf_wheel t obj hist).1.sc_control_point_id
      = obj.sc_control_point_id ∧
    (initialize_BLECyclingPower slrc cpf_crank cpf_wheel t BLECyclingPower_new
        hist).2.getLast? = some (.setCharBuffer none [0]) ∧
    (initialize_BLECyclingPower slrc cpf_crank cpf_wheel t obj hist).1.cp_sensor_location_id
      = some (t (hist ++ [.factoryReset, .clear, .addService 0x1818,
          .addCharacteristic 0x2A65 0x02 4 4 0, .addCharacteristic 0x2A63 0x12 14 14 0,
          .addCharacteristic 0x2A5D 0x02 1 1 0]) % 256) ∧
    (initialize_BLECyclingPower slrc cpf_crank cpf_wheel t obj hist).1.cp_feature_id
      = some (t (hist ++ [.factoryReset, .clear, .addService 0x1818,
          .addCharacteristic 0x2A65 0x02 4 4 0]) % 256) := by
  have hobj := initialize_object slrc cpf_crank cpf_wheel t obj hist
  have hfields := load_or_setup_gatts_fields t obj hist
  refine ⟨?_, ?_, ?_, ?_, ?_⟩
  · rw [initialize_history, load_or_setup_gatts_history, hobj, hfields]
    simp
  · rw [hobj, hfields]
  · rw [initialize_history, load_or_setup_gatts_fields]
    simp [BLECyclingPower_new]
  · rw [hobj, hfields]
  · rw [hobj, hfields]

/-- C20 (the code at the failing input): the reference lines `line_2` and
`line_4` are the catalog lines of the Feature and Sensor Location
characteristics as `setup_cycling_power_feature` creates them, but `line_3`
is the catalog line of a Measurement characteristic with PROPERTIES=0x10,
MIN_LEN=6, MAX_LEN=6, whereas the `addCharacteristic` call for 0x2A63 passes
properties 0x12 and lengths 14 and 14; 14 is the length of the record that
`update` writes. -/
theorem measurement_characteristic_not_as_reference (t : Transport) (obj : BLECyclingPower)
    (hist : List Command) :
    (setup_cycling_power_feature t obj hist).2
      = hist ++ [.addService 0x1818, .addCharacteristic 0x2A65 0x02 4 4 0,
          .addCharacteristic 0x2A63 0x12 14 14 0, .addCharacteristic 0x2A5D 0x02 1 1 0] ∧
    line_2 = gatt_characteristic_line 1 0x2A65 0x02 4 4 0 "0" ∧
    line_4 = gatt_characteristic_line 3 0x2A5D 0x02 1 1 0 "0" ∧
    line_3 = gatt_characteristic_line 2 0x2A63 0x10 6 6 0 "00-00-00-00-00-00" ∧
    line_3 ≠ gatt_characteristic_line 2 0x2A63 0x12 14 14 0
      "00-00-00-00-00-00-00-00-00-00-00-00-00-00" ∧
    (GATT_CHARS_PROPERTIES_READ ||| GATT_CHARS_PROPERTIES_NOTIFY) = 0x12 ∧
    (update_buffer 0x20 0x10 1675 62850 5199 1290 156 195).length = 14 := by
  refine ⟨setup_cycling_power_feature_history t obj hist, by decide, by decide, by decide,
    by decide, by decide, ?_⟩
  rw [update_buffer_eq_objects]
  simp [object_bytes]

end Pelomon
